import Mathlib

/-!
# Mundos Virtuales: frame loop, keyboard input and animation blending

A shallow embedding of the three demo scenes of the repository

* `02-Controles/src/script.js`              (namespace `Controles`)
* `03-Combinar-animaciones/src/script.js`   (namespace `CombinarAnimaciones`)
* `04-Mundo-Virtual/src/script.js`          (namespace `MundoVirtual`)

The scripts keep their state in module-level variables; here every script gets a
record holding those variables, the event listeners and `tick` become functions
on that record, and the calls into the rendering, physics and animation
libraries are either modelled by the field they write (`copy`,
`setEffectiveWeight`) or taken as functions supplied from outside
(`world.fixedStep`, `mixer.update`).  Each `tick` also returns the list of
library calls and body writes it performed, in program order.

JavaScript numbers are IEEE-754 binary64 values; `JSNum` models them with exact
integer arithmetic and round-to-nearest-even.
-/

namespace MundosVirtuales

/-! ## JavaScript numbers -/

/-- A JavaScript number.  A finite binary64 value is an integer multiple of
`2^(-1074)`; `fin k` stands for `k * 2^(-1074)`.  The two zeros are identified
(they compare equal in JavaScript). -/
inductive JSNum where
  | nan : JSNum
  | posInf : JSNum
  | negInf : JSNum
  | fin (k : Int) : JSNum
deriving DecidableEq, Repr

namespace JSNum

/-- Binary search for the position of the leading bit: with `e` the bits found so far,
try each candidate bit of the exponent from the highest down. -/
def log2Aux (n : Nat) : List Nat → Nat → Nat
  | [], e => e
  | j :: js, e => if n >>> (e + j) = 0 then log2Aux n js e else log2Aux n js (e + j)

/-- Position of the leading bit of `n`, for `0 < n < 2^4096`. -/
def log2 (n : Nat) : Nat := log2Aux n [2048, 1024, 512, 256, 128, 64, 32, 16, 8, 4, 2, 1] 0

/-- Round a magnitude, in units of `2^(-1074)`, to 53 significant bits, ties to even. -/
def roundNat (n : Nat) : Nat :=
  if n < 2 ^ 53 then n
  else
    let sh := log2 n - 52
    let q := n >>> sh
    let r := n - (q <<< sh)
    let half := 1 <<< (sh - 1)
    let q1 := if half < r ∨ (r = half ∧ q % 2 = 1) then q + 1 else q
    q1 <<< sh

/-- Magnitudes from `2^1024` on (in units of `2^(-1074)`) overflow to infinity. -/
def overflowBound : Nat := 1 <<< 2098

/-- The binary64 value nearest to the exact value `i * 2^(-1074)`. -/
def ofInt (i : Int) : JSNum :=
  let m := roundNat i.natAbs
  if overflowBound ≤ m then (if i < 0 then negInf else posInf)
  else fin (if i < 0 then -(m : Int) else (m : Int))

/-- Unary minus. -/
def neg : JSNum → JSNum
  | nan => nan
  | posInf => negInf
  | negInf => posInf
  | fin k => fin (-k)

/-- The `+` of JavaScript on numbers. -/
def add : JSNum → JSNum → JSNum
  | nan, _ => nan
  | _, nan => nan
  | posInf, negInf => nan
  | negInf, posInf => nan
  | posInf, _ => posInf
  | _, posInf => posInf
  | negInf, _ => negInf
  | _, negInf => negInf
  | fin a, fin b => ofInt (a + b)

/-- The binary `-` of JavaScript on numbers. -/
def sub (a b : JSNum) : JSNum := add a (neg b)

instance : Add JSNum := ⟨add⟩
instance : Sub JSNum := ⟨sub⟩
instance : Neg JSNum := ⟨neg⟩

/-- The whole number `n` as a JavaScript number (exact for `n ≤ 2^53`). -/
def whole (n : Nat) : JSNum := fin (Int.ofNat (n <<< 1074))

/-- The literal `0`. -/
def zero : JSNum := fin 0

/-- The literal `1`. -/
def one : JSNum := whole 1

/-- The literal `0.1`, that is `0x1.999999999999ap-4 = 3602879701896397 * 2^(-55)`. -/
def lit_0_1 : JSNum := fin (Int.ofNat (3602879701896397 <<< 1019))

/-- The literal `0.025`, that is `3602879701896397 * 2^(-57)`. -/
def lit_0_025 : JSNum := fin (Int.ofNat (3602879701896397 <<< 1017))

/-- The constant `Math.PI`, that is `884279719003555 * 2^(-48)`. -/
def mathPI : JSNum := fin (Int.ofNat (884279719003555 <<< 1026))

/-- The exact value of a finite number, in units of `2^(-1074)`. -/
def exact? : JSNum → Option Int
  | fin k => some k
  | _ => none

/-- The property that the exact value `k * 2^(-1074)` is a finite binary64 value. -/
def Representable (k : Int) : Prop := roundNat k.natAbs = k.natAbs ∧ k.natAbs < overflowBound

instance (k : Int) : Decidable (Representable k) := by
  unfold Representable; infer_instance

end JSNum


/-! ## Data model shared by the scenes -/

/-- The `x`, `y`, `z` of a `CANNON.Vec3` or a `THREE.Vector3`. -/
structure Vec3 where
  x : JSNum
  y : JSNum
  z : JSNum
deriving DecidableEq, Repr

/-- The `x`, `y`, `z`, `w` of a `CANNON.Quaternion` or a `THREE.Quaternion`. -/
structure Quaternion where
  x : JSNum
  y : JSNum
  z : JSNum
  w : JSNum
deriving DecidableEq, Repr

/-- The vector `(0, 0, 0)` every position starts with. -/
def Vec3.origin : Vec3 := ⟨JSNum.zero, JSNum.zero, JSNum.zero⟩

/-- The identity rotation `(0, 0, 0, 1)` every quaternion starts with. -/
def Quaternion.identity : Quaternion := ⟨JSNum.zero, JSNum.zero, JSNum.zero, JSNum.one⟩

/-- A `CANNON.Body`: the fields the scripts read or write, and the velocities the engine
integrates. -/
structure Body where
  position : Vec3
  quaternion : Quaternion
  velocity : Vec3
  angularVelocity : Vec3
deriving DecidableEq, Repr

/-- The bodies of `world` whose transform the frame loop reads (`groundBody` and
`obstacleBody` are static and never read after set-up). -/
structure World where
  sphereBody : Body
  playerBody : Body
deriving DecidableEq, Repr

/-- A render proxy, a `THREE.Mesh` or `THREE.Group`: the transform the frame loop writes. -/
structure Object3D where
  position : Vec3
  quaternion : Quaternion
deriving DecidableEq, Repr

/-- The object literal `playerMovement`. -/
structure PlayerMovement where
  speed : JSNum
  forward : Bool
  backward : Bool
  left : Bool
  right : Bool
  jump : Bool
deriving DecidableEq, Repr

/-- The value `playerMovement` is initialised with in all three scripts. -/
def PlayerMovement.initial : PlayerMovement :=
  { speed := JSNum.lit_0_1, forward := false, backward := false, left := false,
    right := false, jump := false }

/-- An `AnimationClip` of the loaded model. -/
structure AnimationClip where
  name : String
deriving DecidableEq, Repr

/-- An `AnimationAction`; `clip` is `none` when `clipAction` was handed `undefined`. -/
structure AnimationAction where
  clip : Option AnimationClip
  weight : JSNum
  timeScale : JSNum
  time : JSNum
  playing : Bool
deriving DecidableEq, Repr

/-- The model a `gltf` carries: scale, position and rotation of its scene root. -/
structure Model where
  scale : Vec3
  position : Vec3
  rotation : Vec3
deriving DecidableEq, Repr

/-- An `AnimationMixer` on a root object. -/
structure AnimationMixer where
  root : Model
  time : JSNum
deriving DecidableEq, Repr

/-- The argument of the load callback. -/
structure GLTF where
  scene : Model
  animations : List AnimationClip
deriving DecidableEq, Repr

/-- The mixer together with the two actions it drives: what `mixer.update` may change. -/
structure Animation where
  mixer : AnimationMixer
  actionIdle : AnimationAction
  actionRun : AnimationAction
deriving DecidableEq, Repr

/-- What the libraries contribute to one frame: the clock reading and the behaviour of
`world.fixedStep()` and of `mixer.update(deltaTime)`. -/
structure Frame where
  elapsedTime : JSNum
  fixedStep : World → World
  mixerUpdate : JSNum → Animation → Animation

/-- The two actions of the scripts. -/
inductive ActionName where
  | idle
  | run
deriving DecidableEq, Repr

/-- The render proxies of the scripts. -/
inductive Proxy where
  | sphereMesh
  | playerMesh
  | foxPlayer
deriving DecidableEq, Repr

/-- The coordinate axes. -/
inductive Axis where
  | x
  | y
  | z
deriving DecidableEq, Repr

/-- The observable steps of a frame: calls into the libraries and writes to `playerBody`. -/
inductive Effect where
  | mixerUpdate (deltaTime : JSNum)
  | setEffectiveWeight (action : ActionName) (weight : JSNum)
  | fixedStep
  | playerBodySub (axis : Axis) (amount : JSNum)
  | playerBodyAdd (axis : Axis) (amount : JSNum)
  | positionCopy (proxy : Proxy)
  | quaternionCopy (proxy : Proxy)
  | controlsUpdate
  | render
  | requestAnimationFrame
deriving DecidableEq, Repr

/-- The error a script can raise: a property access on `null`. -/
inductive JSError where
  | typeError
deriving DecidableEq, Repr

/-- The result of running a listener: the state it leaves and the error it raised, if any. -/
structure Outcome (σ : Type) where
  state : σ
  error : Option JSError

/-- A keyboard event with its `event.key`. -/
inductive KeyEvent where
  | keydown (key : String)
  | keyup (key : String)
deriving DecidableEq, Repr

/-- The call `mixer.clipAction(clip)`: a fresh action on the clip, with the defaults of the
library. -/
def clipAction (clip : Option AnimationClip) : AnimationAction :=
  { clip := clip, weight := JSNum.one, timeScale := JSNum.one, time := JSNum.zero,
    playing := false }

/-- The call `action.setEffectiveWeight(weight)`. -/
def AnimationAction.setEffectiveWeight (a : AnimationAction) (weight : JSNum) : AnimationAction :=
  { a with weight := weight }

/-- The call `action.play()`. -/
def AnimationAction.play (a : AnimationAction) : AnimationAction :=
  { a with playing := true }

/-- The player-movement block of `tick` (lines 208-223 of `02-Controles`, lines 292-307 of
`04-Mundo-Virtual`, the same statements): it reads `playerMovement` and writes
`playerBody.position`; `r` is that position and the effects so far. -/
def playerMovementBlock (playerMovement : PlayerMovement) (r : Vec3 × List Effect) :
    Vec3 × List Effect :=
  let r : Vec3 × List Effect :=
    if playerMovement.forward then
      ({ r.1 with z := r.1.z - playerMovement.speed },
        r.2 ++ [Effect.playerBodySub Axis.z playerMovement.speed])
    else r
  let r : Vec3 × List Effect :=
    if playerMovement.backward then
      ({ r.1 with z := r.1.z + playerMovement.speed },
        r.2 ++ [Effect.playerBodyAdd Axis.z playerMovement.speed])
    else r
  let r : Vec3 × List Effect :=
    if playerMovement.left then
      ({ r.1 with x := r.1.x - playerMovement.speed },
        r.2 ++ [Effect.playerBodySub Axis.x playerMovement.speed])
    else r
  let r : Vec3 × List Effect :=
    if playerMovement.right then
      ({ r.1 with x := r.1.x + playerMovement.speed },
        r.2 ++ [Effect.playerBodyAdd Axis.x playerMovement.speed])
    else r
  let r : Vec3 × List Effect :=
    if playerMovement.jump then
      ({ r.1 with y := r.1.y + playerMovement.speed },
        r.2 ++ [Effect.playerBodyAdd Axis.y playerMovement.speed])
    else r
  r

/-! ## `02-Controles/src/script.js` -/

namespace Controles

/-- The module-level variables of the script that the listeners and `tick` use. -/
structure Scene where
  world : World
  sphereMesh : Object3D
  playerMesh : Object3D
  playerMovement : PlayerMovement

/-- The state after the top-level statements have run (lines 63-155): `sphereBody` at
`(0, 4, 0)`, `playerBody` at `(-4, -1, 0)`, `playerMesh.position` copied from `playerBody`. -/
def Scene.initial : Scene :=
  { world :=
      { sphereBody :=
          { position := ⟨JSNum.zero, JSNum.whole 4, JSNum.zero⟩,
            quaternion := Quaternion.identity,
            velocity := Vec3.origin, angularVelocity := Vec3.origin },
        playerBody :=
          { position := ⟨-JSNum.whole 4, -JSNum.whole 1, JSNum.zero⟩,
            quaternion := Quaternion.identity,
            velocity := Vec3.origin, angularVelocity := Vec3.origin } },
    sphereMesh := { position := Vec3.origin, quaternion := Quaternion.identity },
    playerMesh :=
      { position := ⟨-JSNum.whole 4, -JSNum.whole 1, JSNum.zero⟩,
        quaternion := Quaternion.identity },
    playerMovement := PlayerMovement.initial }

/-- The `keydown` listener (lines 157-175). -/
def keydown (key : String) (s : Scene) : Scene :=
  match key with
  | "w" => { s with playerMovement := { s.playerMovement with forward := true } }
  | "s" => { s with playerMovement := { s.playerMovement with backward := true } }
  | "a" => { s with playerMovement := { s.playerMovement with left := true } }
  | "d" => { s with playerMovement := { s.playerMovement with right := true } }
  | " " => { s with playerMovement := { s.playerMovement with jump := true } }
  | _ => s

/-- The `keyup` listener (lines 177-195). -/
def keyup (key : String) (s : Scene) : Scene :=
  match key with
  | "w" => { s with playerMovement := { s.playerMovement with forward := false } }
  | "s" => { s with playerMovement := { s.playerMovement with backward := false } }
  | "a" => { s with playerMovement := { s.playerMovement with left := false } }
  | "d" => { s with playerMovement := { s.playerMovement with right := false } }
  | " " => { s with playerMovement := { s.playerMovement with jump := false } }
  | _ => s

/-- The function `tick` (lines 201-241): the state it leaves and what it did, in order. -/
def tick (fr : Frame) (s : Scene) : Scene × List Effect :=
  -- Physics
  let s := { s with world := fr.fixedStep s.world }
  let fx := [Effect.fixedStep]
  -- Player movement
  let r := playerMovementBlock s.playerMovement (s.world.playerBody.position, fx)
  let s := { s with world.playerBody.position := r.1 }
  let fx := r.2
  let s := { s with sphereMesh.position := s.world.sphereBody.position }
  let s := { s with sphereMesh.quaternion := s.world.sphereBody.quaternion }
  let fx := fx ++ [Effect.positionCopy Proxy.sphereMesh, Effect.quaternionCopy Proxy.sphereMesh]
  -- Player
  let s := { s with playerMesh.position := s.world.playerBody.position }
  let s := { s with playerMesh.quaternion := s.world.playerBody.quaternion }
  let fx := fx ++ [Effect.positionCopy Proxy.playerMesh, Effect.quaternionCopy Proxy.playerMesh]
  -- Update controls, render, call tick again on the next frame
  (s, fx ++ [Effect.controlsUpdate, Effect.render, Effect.requestAnimationFrame])

/-- Consecutive frames with no keyboard event in between. -/
def run (frames : List Frame) (s : Scene) : Scene :=
  frames.foldl (fun s fr => (tick fr s).1) s

end Controles

/-! ## `03-Combinar-animaciones/src/script.js` -/

namespace CombinarAnimaciones

/-- The module-level variables of the script that the load callback, the listeners and
`tick` use. -/
structure Scene where
  mixer : Option AnimationMixer
  actionIdle : Option AnimationAction
  actionRun : Option AnimationAction
  playerMovement : PlayerMovement
  previousTime : JSNum

/-- The state after the top-level statements have run, before the model has loaded. -/
def Scene.initial : Scene :=
  { mixer := none, actionIdle := none, actionRun := none,
    playerMovement := PlayerMovement.initial, previousTime := JSNum.zero }

/-- The callback handed to `gltfLoader.load` (lines 40-55). -/
def onLoad (gltf : GLTF) (s : Scene) : Scene :=
  let root := { gltf.scene with scale := ⟨JSNum.lit_0_025, JSNum.lit_0_025, JSNum.lit_0_025⟩ }
  -- Animation
  let mixer : AnimationMixer := { root := root, time := JSNum.zero }
  let actionIdle := clipAction gltf.animations[0]?
  let actionRun := clipAction gltf.animations[1]?
  let actionIdle := actionIdle.setEffectiveWeight JSNum.one
  let actionIdle := actionIdle.play
  let actionRun := actionRun.play
  { s with mixer := some mixer, actionIdle := some actionIdle, actionRun := some actionRun }

/-- The `keydown` listener (lines 150-170): the assignment to `actionRun.timeScale` raises a
`TypeError` while `actionRun` is still `null`, after the flag has been written. -/
def keydown (key : String) (s : Scene) : Outcome Scene :=
  match key with
  | "w" =>
    let s := { s with playerMovement := { s.playerMovement with forward := true } }
    match s.actionRun with
    | none => { state := s, error := some JSError.typeError }
    | some actionRun =>
      { state := { s with actionRun := some { actionRun with timeScale := JSNum.one } },
        error := none }
  | "s" =>
    let s := { s with playerMovement := { s.playerMovement with backward := true } }
    match s.actionRun with
    | none => { state := s, error := some JSError.typeError }
    | some actionRun =>
      { state := { s with actionRun := some { actionRun with timeScale := -JSNum.one } },
        error := none }
  | "a" =>
    { state := { s with playerMovement := { s.playerMovement with left := true } },
      error := none }
  | "d" =>
    { state := { s with playerMovement := { s.playerMovement with right := true } },
      error := none }
  | " " =>
    { state := { s with playerMovement := { s.playerMovement with jump := true } },
      error := none }
  | _ => { state := s, error := none }

/-- The `keyup` listener (lines 172-190). -/
def keyup (key : String) (s : Scene) : Outcome Scene :=
  match key with
  | "w" =>
    { state := { s with playerMovement := { s.playerMovement with forward := false } },
      error := none }
  | "s" =>
    { state := { s with playerMovement := { s.playerMovement with backward := false } },
      error := none }
  | "a" =>
    { state := { s with playerMovement := { s.playerMovement with left := false } },
      error := none }
  | "d" =>
    { state := { s with playerMovement := { s.playerMovement with right := false } },
      error := none }
  | " " =>
    { state := { s with playerMovement := { s.playerMovement with jump := false } },
      error := none }
  | _ => { state := s, error := none }

/-- One keyboard event delivered to its listener. -/
def handle (e : KeyEvent) (s : Scene) : Outcome Scene :=
  match e with
  | KeyEvent.keydown key => keydown key s
  | KeyEvent.keyup key => keyup key s

/-- A sequence of keyboard events; an error raised by a listener ends that listener only,
the next event finds the state the failed listener left. -/
def dispatch (events : List KeyEvent) (s : Scene) : Scene :=
  events.foldl (fun s e => (handle e s).state) s

/-- The function `tick` (lines 200-232): the state it leaves and what it did, in order. -/
def tick (fr : Frame) (s : Scene) : Scene × List Effect :=
  let elapsedTime := fr.elapsedTime
  let deltaTime := elapsedTime - s.previousTime
  let s := { s with previousTime := elapsedTime }
  -- Model animation
  let r : Scene × List Effect :=
    match s.mixer, s.actionIdle, s.actionRun with
    | some mixer, some actionIdle, some actionRun =>
      let a := fr.mixerUpdate deltaTime
        { mixer := mixer, actionIdle := actionIdle, actionRun := actionRun }
      -- Check if any arrow key is pressed
      let anyArrowKeyPressed :=
        s.playerMovement.forward || s.playerMovement.backward ||
          s.playerMovement.left || s.playerMovement.right
      let targetIdleWeight := if anyArrowKeyPressed then JSNum.zero else JSNum.one
      let targetRunWeight := if anyArrowKeyPressed then JSNum.one else JSNum.zero
      -- Apply new weights
      ({ s with
          mixer := some a.mixer,
          actionIdle := some (a.actionIdle.setEffectiveWeight targetIdleWeight),
          actionRun := some (a.actionRun.setEffectiveWeight targetRunWeight) },
        [Effect.mixerUpdate deltaTime,
          Effect.setEffectiveWeight ActionName.idle targetIdleWeight,
          Effect.setEffectiveWeight ActionName.run targetRunWeight])
    | _, _, _ => (s, [])
  -- Update controls, render, call tick again on the next frame
  (r.1, r.2 ++ [Effect.controlsUpdate, Effect.render, Effect.requestAnimationFrame])

/-- Consecutive frames with no keyboard event in between. -/
def run (frames : List Frame) (s : Scene) : Scene :=
  frames.foldl (fun s fr => (tick fr s).1) s

end CombinarAnimaciones

/-! ## `04-Mundo-Virtual/src/script.js` -/

namespace MundoVirtual

/-- The module-level variables of the script that the load callback, the listeners and
`tick` use. -/
structure Scene where
  fox : Option Model
  foxPlayer : Object3D
  mixer : Option AnimationMixer
  actionIdle : Option AnimationAction
  actionRun : Option AnimationAction
  world : World
  sphereMesh : Object3D
  playerMovement : PlayerMovement
  previousTime : JSNum

/-- The constant `playerHeight`. -/
def playerHeight : JSNum := JSNum.whole 1

/-- The state after the top-level statements have run, before the model has loaded:
`sphereBody` at `(0, 4, 0)`, `playerBody` at `(0, playerHeight, 0)`. -/
def Scene.initial : Scene :=
  { fox := none,
    foxPlayer := { position := Vec3.origin, quaternion := Quaternion.identity },
    mixer := none, actionIdle := none, actionRun := none,
    world :=
      { sphereBody :=
          { position := ⟨JSNum.zero, JSNum.whole 4, JSNum.zero⟩,
            quaternion := Quaternion.identity,
            velocity := Vec3.origin, angularVelocity := Vec3.origin },
        playerBody :=
          { position := ⟨JSNum.zero, playerHeight, JSNum.zero⟩,
            quaternion := Quaternion.identity,
            velocity := Vec3.origin, angularVelocity := Vec3.origin } },
    sphereMesh := { position := Vec3.origin, quaternion := Quaternion.identity },
    playerMovement := PlayerMovement.initial,
    previousTime := JSNum.zero }

/-- The callback handed to `gltfLoader.load` (lines 38-56); `foxPlayer.add(fox)` makes the
model a child of `foxPlayer` and leaves the transform of `foxPlayer` as it is. -/
def onLoad (gltf : GLTF) (s : Scene) : Scene :=
  let fox := gltf.scene
  let fox := { fox with scale := ⟨JSNum.lit_0_025, JSNum.lit_0_025, JSNum.lit_0_025⟩ }
  let fox := { fox with position.y := -playerHeight }
  let fox := { fox with rotation.y := JSNum.mathPI }
  -- Animation
  let mixer : AnimationMixer := { root := fox, time := JSNum.zero }
  let actionIdle := clipAction gltf.animations[0]?
  let actionRun := clipAction gltf.animations[1]?
  let actionIdle := actionIdle.setEffectiveWeight JSNum.one
  let actionIdle := actionIdle.play
  let actionRun := actionRun.play
  { s with
    fox := some fox, mixer := some mixer,
    actionIdle := some actionIdle, actionRun := some actionRun }

/-- The `keydown` listener (lines 215-235): the assignment to `actionRun.timeScale` raises a
`TypeError` while `actionRun` is still `null`, after the flag has been written. -/
def keydown (key : String) (s : Scene) : Outcome Scene :=
  match key with
  | "w" =>
    let s := { s with playerMovement := { s.playerMovement with forward := true } }
    match s.actionRun with
    | none => { state := s, error := some JSError.typeError }
    | some actionRun =>
      { state := { s with actionRun := some { actionRun with timeScale := JSNum.one } },
        error := none }
  | "s" =>
    let s := { s with playerMovement := { s.playerMovement with backward := true } }
    match s.actionRun with
    | none => { state := s, error := some JSError.typeError }
    | some actionRun =>
      { state := { s with actionRun := some { actionRun with timeScale := -JSNum.one } },
        error := none }
  | "a" =>
    { state := { s with playerMovement := { s.playerMovement with left := true } },
      error := none }
  | "d" =>
    { state := { s with playerMovement := { s.playerMovement with right := true } },
      error := none }
  | " " =>
    { state := { s with playerMovement := { s.playerMovement with jump := true } },
      error := none }
  | _ => { state := s, error := none }

/-- The `keyup` listener (lines 237-255). -/
def keyup (key : String) (s : Scene) : Outcome Scene :=
  match key with
  | "w" =>
    { state := { s with playerMovement := { s.playerMovement with forward := false } },
      error := none }
  | "s" =>
    { state := { s with playerMovement := { s.playerMovement with backward := false } },
      error := none }
  | "a" =>
    { state := { s with playerMovement := { s.playerMovement with left := false } },
      error := none }
  | "d" =>
    { state := { s with playerMovement := { s.playerMovement with right := false } },
      error := none }
  | " " =>
    { state := { s with playerMovement := { s.playerMovement with jump := false } },
      error := none }
  | _ => { state := s, error := none }

/-- One keyboard event delivered to its listener. -/
def handle (e : KeyEvent) (s : Scene) : Outcome Scene :=
  match e with
  | KeyEvent.keydown key => keydown key s
  | KeyEvent.keyup key => keyup key s

/-- A sequence of keyboard events; an error raised by a listener ends that listener only,
the next event finds the state the failed listener left. -/
def dispatch (events : List KeyEvent) (s : Scene) : Scene :=
  events.foldl (fun s e => (handle e s).state) s

/-- The function `tick` (lines 265-328): the state it leaves and what it did, in order. -/
def tick (fr : Frame) (s : Scene) : Scene × List Effect :=
  let elapsedTime := fr.elapsedTime
  let deltaTime := elapsedTime - s.previousTime
  let s := { s with previousTime := elapsedTime }
  -- Model animation
  let r : Scene × List Effect :=
    match s.mixer, s.actionIdle, s.actionRun with
    | some mixer, some actionIdle, some actionRun =>
      let a := fr.mixerUpdate deltaTime
        { mixer := mixer, actionIdle := actionIdle, actionRun := actionRun }
      -- Check if any arrow key is pressed
      let anyArrowKeyPressed :=
        s.playerMovement.forward || s.playerMovement.backward ||
          s.playerMovement.left || s.playerMovement.right
      let targetIdleWeight := if anyArrowKeyPressed then JSNum.zero else JSNum.one
      let targetRunWeight := if anyArrowKeyPressed then JSNum.one else JSNum.zero
      -- Apply new weights
      ({ s with
          mixer := some a.mixer,
          actionIdle := some (a.actionIdle.setEffectiveWeight targetIdleWeight),
          actionRun := some (a.actionRun.setEffectiveWeight targetRunWeight) },
        [Effect.mixerUpdate deltaTime,
          Effect.setEffectiveWeight ActionName.idle targetIdleWeight,
          Effect.setEffectiveWeight ActionName.run targetRunWeight])
    | _, _, _ => (s, [])
  -- Physics
  let s := { r.1 with world := fr.fixedStep r.1.world }
  let fx := r.2 ++ [Effect.fixedStep]
  -- Player movement
  let r := playerMovementBlock s.playerMovement (s.world.playerBody.position, fx)
  let s := { s with world.playerBody.position := r.1 }
  let fx := r.2
  let s := { s with sphereMesh.position := s.world.sphereBody.position }
  let s := { s with sphereMesh.quaternion := s.world.sphereBody.quaternion }
  let fx := fx ++ [Effect.positionCopy Proxy.sphereMesh, Effect.quaternionCopy Proxy.sphereMesh]
  -- Player: `playerBody` and `foxPlayer` are never null, `fox` is until the model has loaded
  let r : Scene × List Effect :=
    match s.fox with
    | some _ =>
      let s := { s with foxPlayer.position := s.world.playerBody.position }
      let s := { s with foxPlayer.quaternion := s.world.playerBody.quaternion }
      (s, fx ++ [Effect.positionCopy Proxy.foxPlayer, Effect.quaternionCopy Proxy.foxPlayer])
    | none => (s, fx)
  -- Update controls, render, call tick again on the next frame
  (r.1, r.2 ++ [Effect.controlsUpdate, Effect.render, Effect.requestAnimationFrame])

/-- Consecutive frames with no keyboard event in between. -/
def run (frames : List Frame) (s : Scene) : Scene :=
  frames.foldl (fun s fr => (tick fr s).1) s

end MundoVirtual

/-! ## Vocabulary of the statements -/

/-- The five conditional statements of the player-movement block of `tick`, on the
position of `playerBody` alone. -/
def playerOffsets (pm : PlayerMovement) (p : Vec3) : Vec3 :=
  let p := if pm.forward then { p with z := p.z - pm.speed } else p
  let p := if pm.backward then { p with z := p.z + pm.speed } else p
  let p := if pm.left then { p with x := p.x - pm.speed } else p
  let p := if pm.right then { p with x := p.x + pm.speed } else p
  let p := if pm.jump then { p with y := p.y + pm.speed } else p
  p

/-- The writes to `playerBody.position` the player-movement block performs, in order. -/
def playerOffsetEffects (pm : PlayerMovement) : List Effect :=
  (if pm.forward then [Effect.playerBodySub Axis.z pm.speed] else []) ++
  (if pm.backward then [Effect.playerBodyAdd Axis.z pm.speed] else []) ++
  (if pm.left then [Effect.playerBodySub Axis.x pm.speed] else []) ++
  (if pm.right then [Effect.playerBodyAdd Axis.x pm.speed] else []) ++
  (if pm.jump then [Effect.playerBodyAdd Axis.y pm.speed] else [])

/-- Some directional key is held. -/
def PlayerMovement.anyDirection (pm : PlayerMovement) : Bool :=
  pm.forward || pm.backward || pm.left || pm.right

/-- Only `forward` is held. -/
def PlayerMovement.forwardOnly (pm : PlayerMovement) : Prop :=
  pm.forward = true ∧ pm.backward = false ∧ pm.left = false ∧ pm.right = false ∧
    pm.jump = false

instance (pm : PlayerMovement) : Decidable pm.forwardOnly := by
  unfold PlayerMovement.forwardOnly; infer_instance

/-- The effects that belong to the animation update. -/
def Effect.isAnimation : Effect → Bool
  | Effect.mixerUpdate _ => true
  | Effect.setEffectiveWeight _ _ => true
  | _ => false

/-- In exact arithmetic `after = before + n * step`, all three being finite. -/
def ExactlyOffset (before after : JSNum) (n : Int) (step : JSNum) : Prop :=
  match before.exact?, after.exact?, step.exact? with
  | some a, some b, some v => b = a + n * v
  | _, _, _ => False

instance (before after : JSNum) (n : Int) (step : JSNum) :
    Decidable (ExactlyOffset before after n step) := by
  unfold ExactlyOffset; split <;> infer_instance

/-- A frame in which the physics step and the mixer update change nothing and the clock
reads `0`. -/
def Frame.still : Frame :=
  { elapsedTime := JSNum.zero, fixedStep := fun w => w, mixerUpdate := fun _ a => a }

/-- A model with three clips, named as those of the Fox sample model are. -/
def foxGLTF : GLTF :=
  { scene :=
      { scale := ⟨JSNum.one, JSNum.one, JSNum.one⟩, position := Vec3.origin,
        rotation := Vec3.origin },
    animations := [⟨"Survey"⟩, ⟨"Walk"⟩, ⟨"Run"⟩] }

/-- The time-scale the last key-down of `w` or `s` in a sequence of key-downs sets:
`1` for `w`, `-1` for `s`, nothing when neither key occurs. -/
def lastTimeScale? : List String → Option JSNum
  | [] => none
  | key :: keys =>
    match lastTimeScale? keys with
    | some v => some v
    | none =>
      if key = "w" then some JSNum.one
      else if key = "s" then some (-JSNum.one)
      else none

/-- The directional keys. -/
def directionalKeys : List String := ["w", "s", "a", "d"]

/-- The contract of a pair of keyboard listeners on the input state `input s` of a scene:
each mapped key writes its own flag and nothing else, any other key writes nothing, and
both listeners are idempotent. -/
def InputContract {σ : Type} (input : σ → PlayerMovement) (down up : String → σ → σ) : Prop :=
  ∀ s : σ,
    input (down "w" s) = { input s with forward := true } ∧
    input (down "s" s) = { input s with backward := true } ∧
    input (down "a" s) = { input s with left := true } ∧
    input (down "d" s) = { input s with right := true } ∧
    input (down " " s) = { input s with jump := true } ∧
    input (up "w" s) = { input s with forward := false } ∧
    input (up "s" s) = { input s with backward := false } ∧
    input (up "a" s) = { input s with left := false } ∧
    input (up "d" s) = { input s with right := false } ∧
    input (up " " s) = { input s with jump := false } ∧
    (∀ key : String, key ∉ ["w", "s", "a", "d", " "] →
      input (down key s) = input s ∧ input (up key s) = input s) ∧
    (∀ key : String,
      input (down key (down key s)) = input (down key s) ∧
      input (up key (up key s)) = input (up key s))

/-- The effects of the animation block of `tick` when the model is loaded. -/
def animationEffects (deltaTime : JSNum) (pm : PlayerMovement) : List Effect :=
  [Effect.mixerUpdate deltaTime,
    Effect.setEffectiveWeight ActionName.idle
      (if pm.anyDirection then JSNum.zero else JSNum.one),
    Effect.setEffectiveWeight ActionName.run
      (if pm.anyDirection then JSNum.one else JSNum.zero)]

/-- The guard `mixer && actionIdle && actionRun` of `03-Combinar-animaciones`. -/
def CombinarAnimaciones.Scene.animationActive (s : CombinarAnimaciones.Scene) : Bool :=
  s.mixer.isSome && s.actionIdle.isSome && s.actionRun.isSome

/-- The guard `mixer && actionIdle && actionRun` of `04-Mundo-Virtual`. -/
def MundoVirtual.Scene.animationActive (s : MundoVirtual.Scene) : Bool :=
  s.mixer.isSome && s.actionIdle.isSome && s.actionRun.isSome

/-- The weights of the idle and of the run action, when the actions exist. -/
def CombinarAnimaciones.Scene.weights (s : CombinarAnimaciones.Scene) :
    Option JSNum × Option JSNum :=
  (s.actionIdle.map (fun a => a.weight), s.actionRun.map (fun a => a.weight))

/-- The weights of the idle and of the run action, when the actions exist. -/
def MundoVirtual.Scene.weights (s : MundoVirtual.Scene) : Option JSNum × Option JSNum :=
  (s.actionIdle.map (fun a => a.weight), s.actionRun.map (fun a => a.weight))

/-- The time-scale of the run action, when the action exists. -/
def CombinarAnimaciones.Scene.runTimeScale (s : CombinarAnimaciones.Scene) : Option JSNum :=
  s.actionRun.map (fun a => a.timeScale)

/-- The time-scale of the run action, when the action exists. -/
def MundoVirtual.Scene.runTimeScale (s : MundoVirtual.Scene) : Option JSNum :=
  s.actionRun.map (fun a => a.timeScale)

/-- No movement key is held. -/
def PlayerMovement.noneHeld (pm : PlayerMovement) : Prop :=
  pm.forward = false ∧ pm.backward = false ∧ pm.left = false ∧ pm.right = false ∧
    pm.jump = false

instance (pm : PlayerMovement) : Decidable pm.noneHeld := by
  unfold PlayerMovement.noneHeld; infer_instance

/-- The scene of `03-Combinar-animaciones` once the model has loaded. -/
def CombinarAnimaciones.Scene.loaded : CombinarAnimaciones.Scene :=
  CombinarAnimaciones.onLoad foxGLTF CombinarAnimaciones.Scene.initial

/-- The scene of `04-Mundo-Virtual` once the model has loaded. -/
def MundoVirtual.Scene.loaded : MundoVirtual.Scene :=
  MundoVirtual.onLoad foxGLTF MundoVirtual.Scene.initial

/-- The scene of `02-Controles` with `w` pressed. -/
def Controles.Scene.forwardHeld : Controles.Scene :=
  Controles.keydown "w" Controles.Scene.initial

/-- The scene of `04-Mundo-Virtual` with the model loaded and `w` pressed. -/
def MundoVirtual.Scene.forwardHeld : MundoVirtual.Scene :=
  (MundoVirtual.keydown "w" MundoVirtual.Scene.loaded).state

/-- The scene of `02-Controles` with the space bar pressed. -/
def Controles.Scene.jumpHeld : Controles.Scene :=
  Controles.keydown " " Controles.Scene.initial

/-- The scene of `04-Mundo-Virtual` with the model loaded and the space bar pressed. -/
def MundoVirtual.Scene.jumpHeld : MundoVirtual.Scene :=
  (MundoVirtual.keydown " " MundoVirtual.Scene.loaded).state

/-- The physics step of every frame leaves the position of `playerBody` as it is. -/
def StepKeepsPlayerPosition (frames : List Frame) : Prop :=
  ∀ fr ∈ frames, ∀ w : World, (fr.fixedStep w).playerBody.position = w.playerBody.position

/-- The writes of a `keydown` listener to `playerMovement`. -/
def PlayerMovement.press (pm : PlayerMovement) (key : String) : PlayerMovement :=
  match key with
  | "w" => { pm with forward := true }
  | "s" => { pm with backward := true }
  | "a" => { pm with left := true }
  | "d" => { pm with right := true }
  | " " => { pm with jump := true }
  | _ => pm

/-- The writes of a `keyup` listener to `playerMovement`. -/
def PlayerMovement.release (pm : PlayerMovement) (key : String) : PlayerMovement :=
  match key with
  | "w" => { pm with forward := false }
  | "s" => { pm with backward := false }
  | "a" => { pm with left := false }
  | "d" => { pm with right := false }
  | " " => { pm with jump := false }
  | _ => pm

/-- Each candidate of a binary search covers the candidates after it: `j = 1 + sum rest`. -/
def JSNum.Halving : List Nat → Prop
  | [] => True
  | j :: rest => j = 1 + rest.sum ∧ JSNum.Halving rest

/-- The distance between two magnitudes. -/
def JSNum.dist (a b : Nat) : Nat := (a - b) + (b - a)

/-! ## Rounding and exact arithmetic -/

namespace JSNum

theorem add_fin (a b : Int) : fin a + fin b = ofInt (a + b) := rfl

theorem sub_fin (a b : Int) : fin a - fin b = ofInt (a - b) := by
  show add (fin a) (neg (fin b)) = _
  simp [add, neg, Int.sub_eq_add_neg]

theorem ofInt_of_representable {k : Int} (h : Representable k) : ofInt k = fin k := by
  obtain ⟨h1, h2⟩ := h
  unfold ofInt
  simp only [h1, Nat.not_le.mpr h2, if_false]
  congr 1
  split
  · omega
  · omega

/-- Repeated subtraction is exact as long as every intermediate value is representable. -/
theorem iterate_sub_exact (k v : Int) (n : Nat)
    (h : ∀ j < n, Representable (k - ((j : Int) + 1) * v)) :
    (fun z => z - fin v)^[n] (fin k) = fin (k - (n : Int) * v) := by
  induction n with
  | zero => simp
  | succ n ih =>
    rw [Function.iterate_succ_apply', ih (fun j hj => h j (Nat.lt_succ_of_lt hj)), sub_fin]
    have e : k - (n : Int) * v - v = k - ((n : Int) + 1) * v := by ring
    rw [e, ofInt_of_representable (h n (Nat.lt_succ_self n))]
    push_cast
    rfl

/-- Repeated addition is exact as long as every intermediate value is representable. -/
theorem iterate_add_exact (k v : Int) (n : Nat)
    (h : ∀ j < n, Representable (k + ((j : Int) + 1) * v)) :
    (fun z => z + fin v)^[n] (fin k) = fin (k + (n : Int) * v) := by
  induction n with
  | zero => simp
  | succ n ih =>
    rw [Function.iterate_succ_apply', ih (fun j hj => h j (Nat.lt_succ_of_lt hj)), add_fin]
    have e : k + (n : Int) * v + v = k + ((n : Int) + 1) * v := by ring
    rw [e, ofInt_of_representable (h n (Nat.lt_succ_self n))]
    push_cast
    rfl


theorem shiftRight_eq_zero_iff (n k : Nat) : n >>> k = 0 ↔ n < 2 ^ k := by
  rw [Nat.shiftRight_eq_div_pow, Nat.div_eq_zero_iff (Nat.two_pow_pos k)]

theorem log2Aux_spec (n : Nat) (js : List Nat) (e : Nat) (hjs : Halving js)
    (h1 : 2 ^ e ≤ n) (h2 : n < 2 ^ (e + 1 + js.sum)) :
    2 ^ log2Aux n js e ≤ n ∧ n < 2 ^ (log2Aux n js e + 1) := by
  induction js generalizing e with
  | nil => exact ⟨h1, by simpa using h2⟩
  | cons j rest ih =>
    obtain ⟨hj, hrest⟩ := hjs
    unfold log2Aux
    by_cases h : n >>> (e + j) = 0
    · rw [if_pos h]
      refine ih e hrest h1 ?_
      have := (shiftRight_eq_zero_iff n (e + j)).mp h
      rw [hj] at this
      rwa [Nat.add_assoc e 1 rest.sum]
    · rw [if_neg h]
      refine ih (e + j) hrest ?_ ?_
      · exact Nat.le_of_not_lt (fun hlt => h ((shiftRight_eq_zero_iff n (e + j)).mpr hlt))
      · have e1 : e + j + 1 + rest.sum = e + 1 + (j :: rest).sum := by
          simp only [List.sum_cons]
          omega
        rw [e1]
        exact h2

/-- The binary search finds the position of the leading bit. -/
theorem log2_spec (n : Nat) (h0 : 0 < n) (h : n >>> 4096 = 0) :
    2 ^ log2 n ≤ n ∧ n < 2 ^ (log2 n + 1) := by
  refine log2Aux_spec n _ 0 ?_ (by simpa using h0) ?_
  · simp [Halving]
  · exact (shiftRight_eq_zero_iff n _).mp h

/-- Rounding is to nearest, ties to even: from `2^53` on, `roundNat n` is a multiple
`q * 2^sh` of the spacing `2^sh` of the binary64 values around `n`, with `q` of at most
53 bits, at most half a spacing away from `n`, and `q` is even when `n` is exactly half
way. -/
theorem roundNat_nearest (n : Nat) (h53 : 2 ^ 53 ≤ n) (h : n >>> 4096 = 0) :
    ∃ q : Nat, roundNat n = q * 2 ^ (log2 n - 52) ∧ q ≤ 2 ^ 53 ∧
      2 * dist (roundNat n) n ≤ 2 ^ (log2 n - 52) ∧
      (2 * dist (roundNat n) n = 2 ^ (log2 n - 52) → q % 2 = 0) := by
  obtain ⟨l1, l2⟩ := log2_spec n (Nat.lt_of_lt_of_le (Nat.two_pow_pos 53) h53) h
  have hlog : 53 ≤ log2 n := by
    by_contra hc
    have : log2 n + 1 ≤ 53 := by omega
    exact absurd (Nat.lt_of_lt_of_le l2 (Nat.pow_le_pow_right (by decide) this))
      (Nat.not_lt.mpr h53)
  obtain ⟨sh, hsh⟩ : ∃ sh, log2 n = sh + 53 := ⟨log2 n - 53, by omega⟩
  have e1 : log2 n - 52 = sh + 1 := by omega
  have hq : n / 2 ^ (sh + 1) < 2 ^ 53 := by
    rw [Nat.div_lt_iff_lt_mul (Nat.two_pow_pos _), ← Nat.pow_add]
    have : log2 n + 1 = 53 + (sh + 1) := by omega
    rw [this] at l2
    exact l2
  have hdm := Nat.div_add_mod n (2 ^ (sh + 1))
  have hr := Nat.mod_lt n (Nat.two_pow_pos (sh + 1))
  have hQ : 2 ^ (sh + 1) = 2 * 2 ^ sh := by rw [Nat.pow_succ, Nat.mul_comm]
  have hmul : 2 ^ (sh + 1) * (n / 2 ^ (sh + 1)) = n / 2 ^ (sh + 1) * 2 ^ (sh + 1) :=
    Nat.mul_comm _ _
  have hr' : n - (n / 2 ^ (sh + 1)) * 2 ^ (sh + 1) = n % 2 ^ (sh + 1) := by omega
  unfold roundNat
  rw [if_neg (Nat.not_lt.mpr h53)]
  simp only [e1, Nat.shiftRight_eq_div_pow, Nat.shiftLeft_eq, Nat.add_sub_cancel, Nat.one_mul,
    hr']
  generalize hqd : n / 2 ^ (sh + 1) = q at *
  generalize hrd : n % 2 ^ (sh + 1) = r at *
  generalize hH : 2 ^ sh = H at *
  generalize hQQ : 2 ^ (sh + 1) = Q at *
  split
  · rename_i hup
    refine ⟨q + 1, rfl, by omega, ?_, ?_⟩
    · rw [Nat.add_mul, Nat.one_mul]
      unfold dist
      rcases hup with hup | ⟨hup, _⟩ <;> omega
    · rw [Nat.add_mul, Nat.one_mul]
      unfold dist
      intro ht
      rcases hup with hup | ⟨_, hodd⟩
      · omega
      · omega
  · rename_i hdown
    refine ⟨q, rfl, by omega, ?_, ?_⟩
    · unfold dist
      have : ¬ H < r := fun hc => hdown (Or.inl hc)
      omega
    · unfold dist
      intro ht
      have h1 : ¬ H < r := fun hc => hdown (Or.inl hc)
      have h2 : r = H := by omega
      have h3 : ¬ q % 2 = 1 := fun hc => hdown (Or.inr ⟨h2, hc⟩)
      omega

/-- The literals are the binary64 values nearest to the decimals they are written as:
with `m = 7205759403792794` of 53 bits, `0.1` is `m * 2^(-56)` and `0.025` is
`m * 2^(-58)`, each at most half a unit in the last place away from the decimal. -/
theorem literals_nearest :
    lit_0_1 = fin (Int.ofNat (7205759403792794 <<< 1018)) ∧
      lit_0_025 = fin (Int.ofNat (7205759403792794 <<< 1016)) ∧
      2 ^ 52 ≤ 7205759403792794 ∧ 7205759403792794 < 2 ^ 53 ∧
      dist (10 * 7205759403792794) (2 ^ 56) ≤ 5 ∧
      dist (40 * 7205759403792794) (2 ^ 58) ≤ 20 := by
  decide

end JSNum

/-! ## What one frame does -/

theorem playerMovementBlock_eq (pm : PlayerMovement) (p : Vec3) (fx : List Effect) :
    playerMovementBlock pm (p, fx) = (playerOffsets pm p, fx ++ playerOffsetEffects pm) := by
  obtain ⟨sp, f, b, l, r, j⟩ := pm
  cases f <;> cases b <;> cases l <;> cases r <;> cases j <;>
    simp [playerMovementBlock, playerOffsets, playerOffsetEffects]

theorem tick_state_controles (fr : Frame) (s : Controles.Scene) :
    (Controles.tick fr s).1 =
      { world :=
          { sphereBody := (fr.fixedStep s.world).sphereBody,
            playerBody :=
              { (fr.fixedStep s.world).playerBody with
                position :=
                  playerOffsets s.playerMovement (fr.fixedStep s.world).playerBody.position } },
        sphereMesh :=
          { position := (fr.fixedStep s.world).sphereBody.position,
            quaternion := (fr.fixedStep s.world).sphereBody.quaternion },
        playerMesh :=
          { position :=
              playerOffsets s.playerMovement (fr.fixedStep s.world).playerBody.position,
            quaternion := (fr.fixedStep s.world).playerBody.quaternion },
        playerMovement := s.playerMovement } := by
  simp [Controles.tick, playerMovementBlock_eq]

theorem tick_trace_controles (fr : Frame) (s : Controles.Scene) :
    (Controles.tick fr s).2 =
      [Effect.fixedStep] ++ playerOffsetEffects s.playerMovement ++
        [Effect.positionCopy Proxy.sphereMesh, Effect.quaternionCopy Proxy.sphereMesh,
          Effect.positionCopy Proxy.playerMesh, Effect.quaternionCopy Proxy.playerMesh,
          Effect.controlsUpdate, Effect.render, Effect.requestAnimationFrame] := by
  simp [Controles.tick, playerMovementBlock_eq]

theorem tick_active_combinar (fr : Frame) (s : CombinarAnimaciones.Scene)
    (mixer : AnimationMixer) (actionIdle actionRun : AnimationAction)
    (hm : s.mixer = some mixer) (hi : s.actionIdle = some actionIdle)
    (hr : s.actionRun = some actionRun) :
    CombinarAnimaciones.tick fr s =
      ({ s with
          previousTime := fr.elapsedTime,
          mixer := some (fr.mixerUpdate (fr.elapsedTime - s.previousTime)
            ⟨mixer, actionIdle, actionRun⟩).mixer,
          actionIdle := some
            ((fr.mixerUpdate (fr.elapsedTime - s.previousTime)
              ⟨mixer, actionIdle, actionRun⟩).actionIdle.setEffectiveWeight
                (if s.playerMovement.anyDirection then JSNum.zero else JSNum.one)),
          actionRun := some
            ((fr.mixerUpdate (fr.elapsedTime - s.previousTime)
              ⟨mixer, actionIdle, actionRun⟩).actionRun.setEffectiveWeight
                (if s.playerMovement.anyDirection then JSNum.one else JSNum.zero)) },
        animationEffects (fr.elapsedTime - s.previousTime) s.playerMovement ++
          [Effect.controlsUpdate, Effect.render, Effect.requestAnimationFrame]) := by
  obtain ⟨m, ai, ar, pm, pt⟩ := s
  simp only at hm hi hr
  subst hm hi hr
  rfl

theorem tick_inactive_combinar (fr : Frame) (s : CombinarAnimaciones.Scene)
    (h : s.animationActive = false) :
    CombinarAnimaciones.tick fr s =
      ({ s with previousTime := fr.elapsedTime },
        [Effect.controlsUpdate, Effect.render, Effect.requestAnimationFrame]) := by
  obtain ⟨m, ai, ar, pm, pt⟩ := s
  cases m <;> cases ai <;> cases ar <;>
    first
      | rfl
      | (simp [CombinarAnimaciones.Scene.animationActive] at h)

theorem tick_world_mundo (fr : Frame) (s : MundoVirtual.Scene) :
    (MundoVirtual.tick fr s).1.world =
      { sphereBody := (fr.fixedStep s.world).sphereBody,
        playerBody :=
          { (fr.fixedStep s.world).playerBody with
            position :=
              playerOffsets s.playerMovement (fr.fixedStep s.world).playerBody.position } } := by
  obtain ⟨fox, fp, m, ai, ar, w, sm, pm, pt⟩ := s
  cases fox <;> cases m <;> cases ai <;> cases ar <;>
    simp [MundoVirtual.tick, playerMovementBlock_eq, MundoVirtual.Scene.animationActive,
      animationEffects, PlayerMovement.anyDirection]

theorem tick_sphereMesh_mundo (fr : Frame) (s : MundoVirtual.Scene) :
    (MundoVirtual.tick fr s).1.sphereMesh =
      { position := (fr.fixedStep s.world).sphereBody.position,
        quaternion := (fr.fixedStep s.world).sphereBody.quaternion } := by
  obtain ⟨fox, fp, m, ai, ar, w, sm, pm, pt⟩ := s
  cases fox <;> cases m <;> cases ai <;> cases ar <;>
    simp [MundoVirtual.tick, playerMovementBlock_eq, MundoVirtual.Scene.animationActive,
      animationEffects, PlayerMovement.anyDirection]

theorem tick_foxPlayer_mundo (fr : Frame) (s : MundoVirtual.Scene) :
    (MundoVirtual.tick fr s).1.foxPlayer =
      if s.fox.isSome then
        { position :=
            playerOffsets s.playerMovement (fr.fixedStep s.world).playerBody.position,
          quaternion := (fr.fixedStep s.world).playerBody.quaternion }
      else s.foxPlayer := by
  obtain ⟨fox, fp, m, ai, ar, w, sm, pm, pt⟩ := s
  cases fox <;> cases m <;> cases ai <;> cases ar <;>
    simp [MundoVirtual.tick, playerMovementBlock_eq, MundoVirtual.Scene.animationActive,
      animationEffects, PlayerMovement.anyDirection]

theorem tick_rest_mundo (fr : Frame) (s : MundoVirtual.Scene) :
    (MundoVirtual.tick fr s).1.playerMovement = s.playerMovement ∧
      (MundoVirtual.tick fr s).1.fox = s.fox ∧
      (MundoVirtual.tick fr s).1.previousTime = fr.elapsedTime := by
  obtain ⟨fox, fp, m, ai, ar, w, sm, pm, pt⟩ := s
  cases fox <;> cases m <;> cases ai <;> cases ar <;>
    simp [MundoVirtual.tick, playerMovementBlock_eq]

theorem tick_animation_active_mundo (fr : Frame) (s : MundoVirtual.Scene)
    (mixer : AnimationMixer) (actionIdle actionRun : AnimationAction)
    (hm : s.mixer = some mixer) (hi : s.actionIdle = some actionIdle)
    (hr : s.actionRun = some actionRun) :
    (MundoVirtual.tick fr s).1.mixer =
        some (fr.mixerUpdate (fr.elapsedTime - s.previousTime)
          ⟨mixer, actionIdle, actionRun⟩).mixer ∧
      (MundoVirtual.tick fr s).1.actionIdle =
        some ((fr.mixerUpdate (fr.elapsedTime - s.previousTime)
          ⟨mixer, actionIdle, actionRun⟩).actionIdle.setEffectiveWeight
            (if s.playerMovement.anyDirection then JSNum.zero else JSNum.one)) ∧
      (MundoVirtual.tick fr s).1.actionRun =
        some ((fr.mixerUpdate (fr.elapsedTime - s.previousTime)
          ⟨mixer, actionIdle, actionRun⟩).actionRun.setEffectiveWeight
            (if s.playerMovement.anyDirection then JSNum.one else JSNum.zero)) := by
  obtain ⟨fox, fp, m, ai, ar, w, sm, pm, pt⟩ := s
  simp only at hm hi hr
  subst hm hi hr
  cases fox <;>
    simp [MundoVirtual.tick, playerMovementBlock_eq, PlayerMovement.anyDirection]

theorem tick_animation_inactive_mundo (fr : Frame) (s : MundoVirtual.Scene)
    (h : s.animationActive = false) :
    (MundoVirtual.tick fr s).1.mixer = s.mixer ∧
      (MundoVirtual.tick fr s).1.actionIdle = s.actionIdle ∧
      (MundoVirtual.tick fr s).1.actionRun = s.actionRun := by
  obtain ⟨fox, fp, m, ai, ar, w, sm, pm, pt⟩ := s
  cases m <;> cases ai <;> cases ar <;>
    first
      | (simp [MundoVirtual.Scene.animationActive] at h; done)
      | (cases fox <;> simp [MundoVirtual.tick, playerMovementBlock_eq])

theorem tick_trace_mundo (fr : Frame) (s : MundoVirtual.Scene) :
    (MundoVirtual.tick fr s).2 =
      (if s.animationActive then
          animationEffects (fr.elapsedTime - s.previousTime) s.playerMovement
        else []) ++
        [Effect.fixedStep] ++ playerOffsetEffects s.playerMovement ++
        [Effect.positionCopy Proxy.sphereMesh, Effect.quaternionCopy Proxy.sphereMesh] ++
        (if s.fox.isSome then
          [Effect.positionCopy Proxy.foxPlayer, Effect.quaternionCopy Proxy.foxPlayer]
        else []) ++
        [Effect.controlsUpdate, Effect.render, Effect.requestAnimationFrame] := by
  obtain ⟨fox, fp, m, ai, ar, w, sm, pm, pt⟩ := s
  cases fox <;> cases m <;> cases ai <;> cases ar <;>
    simp [MundoVirtual.tick, playerMovementBlock_eq, MundoVirtual.Scene.animationActive,
      animationEffects, PlayerMovement.anyDirection]

theorem weights_tick_combinar (fr : Frame) (s : CombinarAnimaciones.Scene)
    (h : s.mixer.isSome ∧ s.actionIdle.isSome ∧ s.actionRun.isSome) :
    (CombinarAnimaciones.tick fr s).1.weights =
      (some (if s.playerMovement.anyDirection then JSNum.zero else JSNum.one),
        some (if s.playerMovement.anyDirection then JSNum.one else JSNum.zero)) := by
  obtain ⟨hm, hi, hr⟩ := h
  obtain ⟨m, hm⟩ := Option.isSome_iff_exists.mp hm
  obtain ⟨i, hi⟩ := Option.isSome_iff_exists.mp hi
  obtain ⟨r, hr⟩ := Option.isSome_iff_exists.mp hr
  rw [tick_active_combinar fr s m i r hm hi hr]
  rfl

theorem weights_tick_mundo (fr : Frame) (s : MundoVirtual.Scene)
    (h : s.mixer.isSome ∧ s.actionIdle.isSome ∧ s.actionRun.isSome) :
    (MundoVirtual.tick fr s).1.weights =
      (some (if s.playerMovement.anyDirection then JSNum.zero else JSNum.one),
        some (if s.playerMovement.anyDirection then JSNum.one else JSNum.zero)) := by
  obtain ⟨hm, hi, hr⟩ := h
  obtain ⟨m, hm⟩ := Option.isSome_iff_exists.mp hm
  obtain ⟨i, hi⟩ := Option.isSome_iff_exists.mp hi
  obtain ⟨r, hr⟩ := Option.isSome_iff_exists.mp hr
  have a := tick_animation_active_mundo fr s m i r hm hi hr
  unfold MundoVirtual.Scene.weights
  rw [a.2.1, a.2.2]
  rfl

theorem PlayerMovement.anyDirection_eq_false (pm : PlayerMovement)
    (h : pm.forward = false ∧ pm.backward = false ∧ pm.left = false ∧ pm.right = false) :
    pm.anyDirection = false := by
  obtain ⟨h1, h2, h3, h4⟩ := h
  simp [PlayerMovement.anyDirection, h1, h2, h3, h4]

theorem PlayerMovement.anyDirection_eq_true (pm : PlayerMovement)
    (h : pm.forward = true ∨ pm.backward = true ∨ pm.left = true ∨ pm.right = true) :
    pm.anyDirection = true := by
  simp only [PlayerMovement.anyDirection, Bool.or_eq_true]
  tauto

theorem playerOffsets_of_noneHeld (pm : PlayerMovement) (p : Vec3) (h : pm.noneHeld) :
    playerOffsets pm p = p := by
  obtain ⟨h1, h2, h3, h4, h5⟩ := h
  simp [playerOffsets, h1, h2, h3, h4, h5]

theorem playerOffsetEffects_not_animation (pm : PlayerMovement) :
    ∀ e ∈ playerOffsetEffects pm, e.isAnimation = false := by
  obtain ⟨sp, f, b, l, r, j⟩ := pm
  cases f <;> cases b <;> cases l <;> cases r <;> cases j <;>
    simp [playerOffsetEffects, Effect.isAnimation]

theorem playerOffsetEffects_count_fixedStep (pm : PlayerMovement) :
    (playerOffsetEffects pm).count Effect.fixedStep = 0 := by
  obtain ⟨sp, f, b, l, r, j⟩ := pm
  cases f <;> cases b <;> cases l <;> cases r <;> cases j <;>
    simp [playerOffsetEffects]

/-! ## Consecutive frames -/

theorem playerOffsets_forwardOnly (pm : PlayerMovement) (p : Vec3) (h : pm.forwardOnly) :
    playerOffsets pm p = { p with z := p.z - pm.speed } := by
  obtain ⟨h1, h2, h3, h4, h5⟩ := h
  simp [playerOffsets, h1, h2, h3, h4, h5]

theorem playerOffsets_y_of_jump (pm : PlayerMovement) (p : Vec3) (h : pm.jump = true) :
    (playerOffsets pm p).y = p.y + pm.speed := by
  obtain ⟨sp, f, b, l, r, j⟩ := pm
  simp only at h
  subst h
  cases f <;> cases b <;> cases l <;> cases r <;> rfl

theorem iterate_forward (v : JSNum) (n : Nat) (p : Vec3) :
    (fun q : Vec3 => { q with z := q.z - v })^[n] p =
      { p with z := (fun z => z - v)^[n] p.z } := by
  induction n generalizing p with
  | zero => rfl
  | succ n ih => rw [Function.iterate_succ_apply, ih, Function.iterate_succ_apply]

theorem iterate_offsets_y (pm : PlayerMovement) (h : pm.jump = true) (n : Nat) (p : Vec3) :
    ((playerOffsets pm)^[n] p).y = (fun y => y + pm.speed)^[n] p.y := by
  induction n generalizing p with
  | zero => rfl
  | succ n ih =>
    rw [Function.iterate_succ_apply, ih, Function.iterate_succ_apply,
      playerOffsets_y_of_jump pm p h]

theorem run_cons_controles (fr : Frame) (frames : List Frame) (s : Controles.Scene) :
    Controles.run (fr :: frames) s = Controles.run frames (Controles.tick fr s).1 := rfl

theorem run_cons_mundo (fr : Frame) (frames : List Frame) (s : MundoVirtual.Scene) :
    MundoVirtual.run (fr :: frames) s = MundoVirtual.run frames (MundoVirtual.tick fr s).1 :=
  rfl

theorem run_position_controles (frames : List Frame) (s : Controles.Scene)
    (h : StepKeepsPlayerPosition frames) :
    (Controles.run frames s).world.playerBody.position =
      (playerOffsets s.playerMovement)^[frames.length] s.world.playerBody.position := by
  induction frames generalizing s with
  | nil => rfl
  | cons fr frames ih =>
    have hfr := h fr (List.mem_cons_self fr frames) s.world
    rw [run_cons_controles, ih _ (fun f hf => h f (List.mem_cons_of_mem fr hf)),
      tick_state_controles, List.length_cons, Function.iterate_succ_apply]
    simp only [hfr]

theorem run_position_mundo (frames : List Frame) (s : MundoVirtual.Scene)
    (h : StepKeepsPlayerPosition frames) :
    (MundoVirtual.run frames s).world.playerBody.position =
      (playerOffsets s.playerMovement)^[frames.length] s.world.playerBody.position := by
  induction frames generalizing s with
  | nil => rfl
  | cons fr frames ih =>
    have hfr := h fr (List.mem_cons_self fr frames) s.world
    rw [run_cons_mundo, ih _ (fun f hf => h f (List.mem_cons_of_mem fr hf)),
      tick_world_mundo, (tick_rest_mundo fr s).1, List.length_cons,
      Function.iterate_succ_apply]
    simp only [hfr]

theorem forward_position (pm : PlayerMovement) (h : pm.forwardOnly) (n : Nat) (p : Vec3) :
    (playerOffsets pm)^[n] p = { p with z := (fun z => z - pm.speed)^[n] p.z } := by
  have e : playerOffsets pm = fun q : Vec3 => { q with z := q.z - pm.speed } :=
    funext fun q => playerOffsets_forwardOnly pm q h
  rw [e, iterate_forward]

theorem stepKeepsPlayerPosition_still (n : Nat) :
    StepKeepsPlayerPosition (List.replicate n Frame.still) := by
  intro fr hfr w
  rw [List.eq_of_mem_replicate hfr]
  rfl

/-! ## The keyboard listeners -/

theorem keydown_input_controles (key : String) (s : Controles.Scene) :
    (Controles.keydown key s).playerMovement = s.playerMovement.press key := by
  unfold Controles.keydown PlayerMovement.press
  split <;> rfl

theorem keyup_input_controles (key : String) (s : Controles.Scene) :
    (Controles.keyup key s).playerMovement = s.playerMovement.release key := by
  unfold Controles.keyup PlayerMovement.release
  split <;> rfl

theorem keydown_input_combinar (key : String) (s : CombinarAnimaciones.Scene) :
    (CombinarAnimaciones.keydown key s).state.playerMovement = s.playerMovement.press key := by
  unfold CombinarAnimaciones.keydown PlayerMovement.press
  split <;> first | rfl | (dsimp only; split <;> rfl)

theorem keyup_input_combinar (key : String) (s : CombinarAnimaciones.Scene) :
    (CombinarAnimaciones.keyup key s).state.playerMovement = s.playerMovement.release key := by
  unfold CombinarAnimaciones.keyup PlayerMovement.release
  split <;> rfl

theorem keydown_input_mundo (key : String) (s : MundoVirtual.Scene) :
    (MundoVirtual.keydown key s).state.playerMovement = s.playerMovement.press key := by
  unfold MundoVirtual.keydown PlayerMovement.press
  split <;> first | rfl | (dsimp only; split <;> rfl)

theorem keyup_input_mundo (key : String) (s : MundoVirtual.Scene) :
    (MundoVirtual.keyup key s).state.playerMovement = s.playerMovement.release key := by
  unfold MundoVirtual.keyup PlayerMovement.release
  split <;> rfl

theorem press_of_unmapped (pm : PlayerMovement) (key : String)
    (h : key ∉ ["w", "s", "a", "d", " "]) : pm.press key = pm := by
  simp only [List.mem_cons, List.mem_singleton, List.not_mem_nil, or_false, not_or] at h
  obtain ⟨h1, h2, h3, h4, h5⟩ := h
  unfold PlayerMovement.press
  split <;> first | rfl | contradiction

theorem release_of_unmapped (pm : PlayerMovement) (key : String)
    (h : key ∉ ["w", "s", "a", "d", " "]) : pm.release key = pm := by
  simp only [List.mem_cons, List.mem_singleton, List.not_mem_nil, or_false, not_or] at h
  obtain ⟨h1, h2, h3, h4, h5⟩ := h
  unfold PlayerMovement.release
  split <;> first | rfl | contradiction

theorem press_press (pm : PlayerMovement) (key : String) :
    (pm.press key).press key = pm.press key := by
  by_cases h1 : key = "w"
  · subst h1; rfl
  by_cases h2 : key = "s"
  · subst h2; rfl
  by_cases h3 : key = "a"
  · subst h3; rfl
  by_cases h4 : key = "d"
  · subst h4; rfl
  by_cases h5 : key = " "
  · subst h5; rfl
  have hk : key ∉ ["w", "s", "a", "d", " "] := by simp [h1, h2, h3, h4, h5]
  rw [press_of_unmapped pm key hk, press_of_unmapped pm key hk]

theorem release_release (pm : PlayerMovement) (key : String) :
    (pm.release key).release key = pm.release key := by
  by_cases h1 : key = "w"
  · subst h1; rfl
  by_cases h2 : key = "s"
  · subst h2; rfl
  by_cases h3 : key = "a"
  · subst h3; rfl
  by_cases h4 : key = "d"
  · subst h4; rfl
  by_cases h5 : key = " "
  · subst h5; rfl
  have hk : key ∉ ["w", "s", "a", "d", " "] := by simp [h1, h2, h3, h4, h5]
  rw [release_of_unmapped pm key hk, release_of_unmapped pm key hk]

theorem inputContract_of_press {σ : Type} (input : σ → PlayerMovement)
    (down up : String → σ → σ)
    (hd : ∀ key s, input (down key s) = (input s).press key)
    (hu : ∀ key s, input (up key s) = (input s).release key) :
    InputContract input down up := by
  intro s
  refine ⟨hd _ _, hd _ _, hd _ _, hd _ _, hd _ _, hu _ _, hu _ _, hu _ _, hu _ _, hu _ _,
    ?_, ?_⟩
  · intro key hk
    rw [hd, hu, press_of_unmapped _ _ hk, release_of_unmapped _ _ hk]
    exact ⟨rfl, rfl⟩
  · intro key
    rw [hd, hd, hu, hu, press_press, release_release]
    exact ⟨rfl, rfl⟩

theorem lastTimeScale?_cons (key : String) (keys : List String) :
    lastTimeScale? (key :: keys) =
      match lastTimeScale? keys with
      | some v => some v
      | none =>
        if key = "w" then some JSNum.one
        else if key = "s" then some (-JSNum.one)
        else none := rfl

theorem keydown_timeScale_combinar (key : String) (s : CombinarAnimaciones.Scene) (h : s.actionRun.isSome) :
    (CombinarAnimaciones.keydown key s).state.actionRun.isSome ∧
      (CombinarAnimaciones.keydown key s).state.runTimeScale =
        if key = "w" then some JSNum.one
        else if key = "s" then some (-JSNum.one)
        else s.runTimeScale := by
  obtain ⟨a, ha⟩ := Option.isSome_iff_exists.mp h
  unfold CombinarAnimaciones.keydown
  split <;> simp_all [CombinarAnimaciones.Scene.runTimeScale]

theorem keyup_actionRun_combinar (key : String) (s : CombinarAnimaciones.Scene) :
    (CombinarAnimaciones.keyup key s).state.actionRun = s.actionRun := by
  unfold CombinarAnimaciones.keyup
  split <;> rfl

theorem dispatch_append_combinar (e1 e2 : List KeyEvent) (s : CombinarAnimaciones.Scene) :
    CombinarAnimaciones.dispatch (e1 ++ e2) s = CombinarAnimaciones.dispatch e2 (CombinarAnimaciones.dispatch e1 s) := by
  unfold CombinarAnimaciones.dispatch
  rw [List.foldl_append]

theorem dispatch_keydowns_combinar (downs : List String) (s : CombinarAnimaciones.Scene)
    (h : s.actionRun.isSome) :
    (CombinarAnimaciones.dispatch (downs.map KeyEvent.keydown) s).actionRun.isSome ∧
      (CombinarAnimaciones.dispatch (downs.map KeyEvent.keydown) s).runTimeScale =
        (match lastTimeScale? downs with
          | some v => some v
          | none => s.runTimeScale) ∧
      (CombinarAnimaciones.dispatch (downs.map KeyEvent.keydown) s).playerMovement =
        downs.foldl PlayerMovement.press s.playerMovement := by
  induction downs generalizing s with
  | nil => exact ⟨h, rfl, rfl⟩
  | cons key keys ih =>
    have hk := keydown_timeScale_combinar key s h
    have ih1 := ih (CombinarAnimaciones.keydown key s).state hk.1
    have e : CombinarAnimaciones.dispatch ((key :: keys).map KeyEvent.keydown) s =
        CombinarAnimaciones.dispatch (keys.map KeyEvent.keydown) (CombinarAnimaciones.keydown key s).state := rfl
    rw [e]
    refine ⟨ih1.1, ?_, ?_⟩
    · rw [ih1.2.1, hk.2, lastTimeScale?_cons]
      cases lastTimeScale? keys with
      | some v => rfl
      | none =>
        by_cases h1 : key = "w"
        · simp [h1]
        · by_cases h2 : key = "s"
          · simp [h2]
          · simp [h1, h2]
    · rw [ih1.2.2, keydown_input_combinar]
      rfl

theorem dispatch_keyups_combinar (ups : List String) (s : CombinarAnimaciones.Scene) :
    (CombinarAnimaciones.dispatch (ups.map KeyEvent.keyup) s).actionRun = s.actionRun ∧
      (CombinarAnimaciones.dispatch (ups.map KeyEvent.keyup) s).playerMovement =
        ups.foldl PlayerMovement.release s.playerMovement := by
  induction ups generalizing s with
  | nil => exact ⟨rfl, rfl⟩
  | cons key keys ih =>
    have ih1 := ih (CombinarAnimaciones.keyup key s).state
    have e : CombinarAnimaciones.dispatch ((key :: keys).map KeyEvent.keyup) s =
        CombinarAnimaciones.dispatch (keys.map KeyEvent.keyup) (CombinarAnimaciones.keyup key s).state := rfl
    rw [e, ih1.1, ih1.2, keyup_actionRun_combinar, keyup_input_combinar]
    exact ⟨rfl, rfl⟩

theorem keydown_timeScale_mundo (key : String) (s : MundoVirtual.Scene) (h : s.actionRun.isSome) :
    (MundoVirtual.keydown key s).state.actionRun.isSome ∧
      (MundoVirtual.keydown key s).state.runTimeScale =
        if key = "w" then some JSNum.one
        else if key = "s" then some (-JSNum.one)
        else s.runTimeScale := by
  obtain ⟨a, ha⟩ := Option.isSome_iff_exists.mp h
  unfold MundoVirtual.keydown
  split <;> simp_all [MundoVirtual.Scene.runTimeScale]

theorem keyup_actionRun_mundo (key : String) (s : MundoVirtual.Scene) :
    (MundoVirtual.keyup key s).state.actionRun = s.actionRun := by
  unfold MundoVirtual.keyup
  split <;> rfl

theorem dispatch_append_mundo (e1 e2 : List KeyEvent) (s : MundoVirtual.Scene) :
    MundoVirtual.dispatch (e1 ++ e2) s = MundoVirtual.dispatch e2 (MundoVirtual.dispatch e1 s) := by
  unfold MundoVirtual.dispatch
  rw [List.foldl_append]

theorem dispatch_keydowns_mundo (downs : List String) (s : MundoVirtual.Scene)
    (h : s.actionRun.isSome) :
    (MundoVirtual.dispatch (downs.map KeyEvent.keydown) s).actionRun.isSome ∧
      (MundoVirtual.dispatch (downs.map KeyEvent.keydown) s).runTimeScale =
        (match lastTimeScale? downs with
          | some v => some v
          | none => s.runTimeScale) ∧
      (MundoVirtual.dispatch (downs.map KeyEvent.keydown) s).playerMovement =
        downs.foldl PlayerMovement.press s.playerMovement := by
  induction downs generalizing s with
  | nil => exact ⟨h, rfl, rfl⟩
  | cons key keys ih =>
    have hk := keydown_timeScale_mundo key s h
    have ih1 := ih (MundoVirtual.keydown key s).state hk.1
    have e : MundoVirtual.dispatch ((key :: keys).map KeyEvent.keydown) s =
        MundoVirtual.dispatch (keys.map KeyEvent.keydown) (MundoVirtual.keydown key s).state := rfl
    rw [e]
    refine ⟨ih1.1, ?_, ?_⟩
    · rw [ih1.2.1, hk.2, lastTimeScale?_cons]
      cases lastTimeScale? keys with
      | some v => rfl
      | none =>
        by_cases h1 : key = "w"
        · simp [h1]
        · by_cases h2 : key = "s"
          · simp [h2]
          · simp [h1, h2]
    · rw [ih1.2.2, keydown_input_mundo]
      rfl

theorem dispatch_keyups_mundo (ups : List String) (s : MundoVirtual.Scene) :
    (MundoVirtual.dispatch (ups.map KeyEvent.keyup) s).actionRun = s.actionRun ∧
      (MundoVirtual.dispatch (ups.map KeyEvent.keyup) s).playerMovement =
        ups.foldl PlayerMovement.release s.playerMovement := by
  induction ups generalizing s with
  | nil => exact ⟨rfl, rfl⟩
  | cons key keys ih =>
    have ih1 := ih (MundoVirtual.keyup key s).state
    have e : MundoVirtual.dispatch ((key :: keys).map KeyEvent.keyup) s =
        MundoVirtual.dispatch (keys.map KeyEvent.keyup) (MundoVirtual.keyup key s).state := rfl
    rw [e, ih1.1, ih1.2, keyup_actionRun_mundo, keyup_input_mundo]
    exact ⟨rfl, rfl⟩

theorem press_directional (pm : PlayerMovement) (key : String) (h : key ∈ directionalKeys) :
    (pm.press key).jump = pm.jump ∧ (pm.press key).speed = pm.speed := by
  simp only [directionalKeys, List.mem_cons, List.mem_singleton, List.not_mem_nil,
    or_false] at h
  rcases h with h | h | h | h <;> subst h <;> exact ⟨rfl, rfl⟩

theorem foldl_press_directional (keys : List String) (pm : PlayerMovement)
    (h : ∀ key ∈ keys, key ∈ directionalKeys) :
    (keys.foldl PlayerMovement.press pm).jump = pm.jump ∧
      (keys.foldl PlayerMovement.press pm).speed = pm.speed := by
  induction keys generalizing pm with
  | nil => exact ⟨rfl, rfl⟩
  | cons key keys ih =>
    have h1 := press_directional pm key (h key (List.mem_cons_self key keys))
    have h2 := ih (pm.press key) (fun k hk => h k (List.mem_cons_of_mem key hk))
    rw [List.foldl_cons, h2.1, h2.2, h1.1, h1.2]
    exact ⟨rfl, rfl⟩

theorem release_flags (pm : PlayerMovement) (key : String) :
    (pm.release key).speed = pm.speed ∧
      ((pm.release key).forward = true → pm.forward = true ∧ key ≠ "w") ∧
      ((pm.release key).backward = true → pm.backward = true ∧ key ≠ "s") ∧
      ((pm.release key).left = true → pm.left = true ∧ key ≠ "a") ∧
      ((pm.release key).right = true → pm.right = true ∧ key ≠ "d") ∧
      ((pm.release key).jump = true → pm.jump = true) := by
  by_cases h1 : key = "w"
  · subst h1; simp [PlayerMovement.release]
  by_cases h2 : key = "s"
  · subst h2; simp [PlayerMovement.release]
  by_cases h3 : key = "a"
  · subst h3; simp [PlayerMovement.release]
  by_cases h4 : key = "d"
  · subst h4; simp [PlayerMovement.release]
  by_cases h5 : key = " "
  · subst h5; simp [PlayerMovement.release]
  have hk : key ∉ ["w", "s", "a", "d", " "] := by simp [h1, h2, h3, h4, h5]
  rw [release_of_unmapped pm key hk]
  simp [h1, h2, h3, h4]

theorem foldl_release_flags (keys : List String) (pm : PlayerMovement) :
    (keys.foldl PlayerMovement.release pm).speed = pm.speed ∧
      ((keys.foldl PlayerMovement.release pm).forward = true →
        pm.forward = true ∧ "w" ∉ keys) ∧
      ((keys.foldl PlayerMovement.release pm).backward = true →
        pm.backward = true ∧ "s" ∉ keys) ∧
      ((keys.foldl PlayerMovement.release pm).left = true → pm.left = true ∧ "a" ∉ keys) ∧
      ((keys.foldl PlayerMovement.release pm).right = true → pm.right = true ∧ "d" ∉ keys) ∧
      ((keys.foldl PlayerMovement.release pm).jump = true → pm.jump = true) := by
  induction keys generalizing pm with
  | nil => simp
  | cons key keys ih =>
    obtain ⟨i0, i1, i2, i3, i4, i5⟩ := ih (pm.release key)
    obtain ⟨r0, r1, r2, r3, r4, r5⟩ := release_flags pm key
    rw [List.foldl_cons]
    refine ⟨i0.trans r0, ?_, ?_, ?_, ?_, ?_⟩
    · intro h
      obtain ⟨a, b⟩ := i1 h
      obtain ⟨c, d⟩ := r1 a
      exact ⟨c, by simp [b, Ne.symm d]⟩
    · intro h
      obtain ⟨a, b⟩ := i2 h
      obtain ⟨c, d⟩ := r2 a
      exact ⟨c, by simp [b, Ne.symm d]⟩
    · intro h
      obtain ⟨a, b⟩ := i3 h
      obtain ⟨c, d⟩ := r3 a
      exact ⟨c, by simp [b, Ne.symm d]⟩
    · intro h
      obtain ⟨a, b⟩ := i4 h
      obtain ⟨c, d⟩ := r4 a
      exact ⟨c, by simp [b, Ne.symm d]⟩
    · intro h
      exact r5 (i5 h)

theorem released_noneHeld (downs ups : List String) (pm : PlayerMovement)
    (hj : pm.jump = false) (hdowns : ∀ key ∈ downs, key ∈ directionalKeys)
    (hups : ∀ key ∈ directionalKeys, key ∈ ups) :
    (ups.foldl PlayerMovement.release (downs.foldl PlayerMovement.press pm)).noneHeld ∧
      (ups.foldl PlayerMovement.release (downs.foldl PlayerMovement.press pm)).speed =
        pm.speed := by
  obtain ⟨r0, r1, r2, r3, r4, r5⟩ :=
    foldl_release_flags ups (downs.foldl PlayerMovement.press pm)
  obtain ⟨p1, p2⟩ := foldl_press_directional downs pm hdowns
  have hw : "w" ∈ ups := hups "w" (by simp [directionalKeys])
  have hs : "s" ∈ ups := hups "s" (by simp [directionalKeys])
  have ha : "a" ∈ ups := hups "a" (by simp [directionalKeys])
  have hd : "d" ∈ ups := hups "d" (by simp [directionalKeys])
  refine ⟨⟨?_, ?_, ?_, ?_, ?_⟩, r0.trans p2⟩
  · by_contra h
    exact (r1 (by simpa using h)).2 hw
  · by_contra h
    exact (r2 (by simpa using h)).2 hs
  · by_contra h
    exact (r3 (by simpa using h)).2 ha
  · by_contra h
    exact (r4 (by simpa using h)).2 hd
  · by_contra h
    have := r5 (by simpa using h)
    rw [p1, hj] at this
    exact Bool.noConfusion this

theorem lastTimeScale?_values (downs : List String) (v : JSNum)
    (h : lastTimeScale? downs = some v) : v = JSNum.one ∨ v = -JSNum.one := by
  induction downs with
  | nil => simp [lastTimeScale?] at h
  | cons key keys ih =>
    rw [lastTimeScale?_cons] at h
    cases hl : lastTimeScale? keys with
    | some u =>
      rw [hl] at h
      simp only [Option.some.injEq] at h
      subst h
      exact ih hl
    | none =>
      rw [hl] at h
      by_cases h1 : key = "w"
      · simp [h1] at h
        exact Or.inl h.symm
      · by_cases h2 : key = "s"
        · simp [h2] at h
          exact Or.inr h.symm
        · simp [h1, h2] at h

theorem lastTimeScale?_of_mem (downs : List String) (h : "s" ∈ downs) :
    lastTimeScale? downs = some JSNum.one ∨ lastTimeScale? downs = some (-JSNum.one) := by
  induction downs with
  | nil => simp at h
  | cons key keys ih =>
    rw [lastTimeScale?_cons]
    by_cases hk : "s" ∈ keys
    · rcases ih hk with e | e <;> rw [e] <;> simp
    · have hks : key = "s" := by
        rcases List.mem_cons.mp h with e | e
        · exact e.symm
        · exact absurd e hk
      subst hks
      cases hl : lastTimeScale? keys with
      | some v =>
        rcases lastTimeScale?_values keys v hl with e | e <;> simp [e]
      | none => simp

theorem keyup_timeScale_combinar (key : String) (s : CombinarAnimaciones.Scene) :
    (CombinarAnimaciones.keyup key s).state.runTimeScale = s.runTimeScale := by
  unfold CombinarAnimaciones.Scene.runTimeScale
  rw [keyup_actionRun_combinar]

theorem keydown_other_timeScale_combinar (key : String) (s : CombinarAnimaciones.Scene)
    (h : key ∈ ["a", "d", " "]) :
    (CombinarAnimaciones.keydown key s).state.runTimeScale = s.runTimeScale := by
  simp only [List.mem_cons, List.mem_singleton, List.not_mem_nil, or_false] at h
  rcases h with h | h | h <;> subst h <;> rfl

theorem released_combinar (downs ups : List String) (s : CombinarAnimaciones.Scene)
    (h : s.actionRun.isSome ∧ s.playerMovement = PlayerMovement.initial)
    (hdowns : ∀ key ∈ downs, key ∈ directionalKeys)
    (hups : ∀ key ∈ directionalKeys, key ∈ ups) :
    (CombinarAnimaciones.dispatch (downs.map KeyEvent.keydown ++ ups.map KeyEvent.keyup) s).playerMovement.noneHeld ∧
      (CombinarAnimaciones.dispatch (downs.map KeyEvent.keydown ++ ups.map KeyEvent.keyup) s).runTimeScale =
        (match lastTimeScale? downs with
          | some v => some v
          | none => s.runTimeScale) := by
  obtain ⟨d1, d2, d3⟩ := dispatch_keydowns_combinar downs s h.1
  obtain ⟨u1, u2⟩ := dispatch_keyups_combinar ups (CombinarAnimaciones.dispatch (downs.map KeyEvent.keydown) s)
  rw [dispatch_append_combinar]
  refine ⟨?_, ?_⟩
  · rw [u2, d3]
    exact (released_noneHeld downs ups s.playerMovement (by rw [h.2]; rfl) hdowns hups).1
  · unfold CombinarAnimaciones.Scene.runTimeScale at d2 ⊢
    rw [u1, d2]

theorem keyup_timeScale_mundo (key : String) (s : MundoVirtual.Scene) :
    (MundoVirtual.keyup key s).state.runTimeScale = s.runTimeScale := by
  unfold MundoVirtual.Scene.runTimeScale
  rw [keyup_actionRun_mundo]

theorem keydown_other_timeScale_mundo (key : String) (s : MundoVirtual.Scene)
    (h : key ∈ ["a", "d", " "]) :
    (MundoVirtual.keydown key s).state.runTimeScale = s.runTimeScale := by
  simp only [List.mem_cons, List.mem_singleton, List.not_mem_nil, or_false] at h
  rcases h with h | h | h <;> subst h <;> rfl

theorem released_mundo (downs ups : List String) (s : MundoVirtual.Scene)
    (h : s.actionRun.isSome ∧ s.playerMovement = PlayerMovement.initial)
    (hdowns : ∀ key ∈ downs, key ∈ directionalKeys)
    (hups : ∀ key ∈ directionalKeys, key ∈ ups) :
    (MundoVirtual.dispatch (downs.map KeyEvent.keydown ++ ups.map KeyEvent.keyup) s).playerMovement.noneHeld ∧
      (MundoVirtual.dispatch (downs.map KeyEvent.keydown ++ ups.map KeyEvent.keyup) s).runTimeScale =
        (match lastTimeScale? downs with
          | some v => some v
          | none => s.runTimeScale) := by
  obtain ⟨d1, d2, d3⟩ := dispatch_keydowns_mundo downs s h.1
  obtain ⟨u1, u2⟩ := dispatch_keyups_mundo ups (MundoVirtual.dispatch (downs.map KeyEvent.keydown) s)
  rw [dispatch_append_mundo]
  refine ⟨?_, ?_⟩
  · rw [u2, d3]
    exact (released_noneHeld downs ups s.playerMovement (by rw [h.2]; rfl) hdowns hups).1
  · unfold MundoVirtual.Scene.runTimeScale at d2 ⊢
    rw [u1, d2]

/-! ## The claims -/

/-- C1: in `03-Combinar-animaciones` and `04-Mundo-Virtual`, for every input state and every
tick in which `mixer`, `actionIdle` and `actionRun` are all set, after the tick the idle
weight is 1 and the run weight is 0 when none of forward, backward, left, right is held,
the idle weight is 0 and the run weight is 1 when at least one of them is held, and the
jump flag has no influence on either weight. -/
theorem blend_weights_after_tick (fr : Frame) (s3 : CombinarAnimaciones.Scene)
    (s4 : MundoVirtual.Scene) (jump : Bool)
    (h3 : s3.mixer.isSome ∧ s3.actionIdle.isSome ∧ s3.actionRun.isSome)
    (h4 : s4.mixer.isSome ∧ s4.actionIdle.isSome ∧ s4.actionRun.isSome) :
    ((s3.playerMovement.forward = false ∧ s3.playerMovement.backward = false ∧
          s3.playerMovement.left = false ∧ s3.playerMovement.right = false →
        (CombinarAnimaciones.tick fr s3).1.weights = (some JSNum.one, some JSNum.zero)) ∧
      (s3.playerMovement.forward = true ∨ s3.playerMovement.backward = true ∨
          s3.playerMovement.left = true ∨ s3.playerMovement.right = true →
        (CombinarAnimaciones.tick fr s3).1.weights = (some JSNum.zero, some JSNum.one)) ∧
      (CombinarAnimaciones.tick fr
          { s3 with playerMovement := { s3.playerMovement with jump := jump } }).1.weights =
        (CombinarAnimaciones.tick fr s3).1.weights) ∧
    ((s4.playerMovement.forward = false ∧ s4.playerMovement.backward = false ∧
          s4.playerMovement.left = false ∧ s4.playerMovement.right = false →
        (MundoVirtual.tick fr s4).1.weights = (some JSNum.one, some JSNum.zero)) ∧
      (s4.playerMovement.forward = true ∨ s4.playerMovement.backward = true ∨
          s4.playerMovement.left = true ∨ s4.playerMovement.right = true →
        (MundoVirtual.tick fr s4).1.weights = (some JSNum.zero, some JSNum.one)) ∧
      (MundoVirtual.tick fr
          { s4 with playerMovement := { s4.playerMovement with jump := jump } }).1.weights =
        (MundoVirtual.tick fr s4).1.weights) := by
  have w3 := weights_tick_combinar fr s3 h3
  have w3j := weights_tick_combinar fr
    { s3 with playerMovement := { s3.playerMovement with jump := jump } } h3
  have w4 := weights_tick_mundo fr s4 h4
  have w4j := weights_tick_mundo fr
    { s4 with playerMovement := { s4.playerMovement with jump := jump } } h4
  refine ⟨⟨?_, ?_, ?_⟩, ⟨?_, ?_, ?_⟩⟩
  · intro h
    rw [w3, PlayerMovement.anyDirection_eq_false _ h]
    rfl
  · intro h
    rw [w3, PlayerMovement.anyDirection_eq_true _ h]
    rfl
  · rw [w3j, w3]
    rfl
  · intro h
    rw [w4, PlayerMovement.anyDirection_eq_false _ h]
    rfl
  · intro h
    rw [w4, PlayerMovement.anyDirection_eq_true _ h]
    rfl
  · rw [w4j, w4]
    rfl

/-- Witness of C1: both scenes right after the model has loaded, no key held, a frame
in which the mixer update changes nothing. -/
theorem blend_weights_after_tick_witness :
    (CombinarAnimaciones.Scene.loaded.mixer.isSome ∧
        CombinarAnimaciones.Scene.loaded.actionIdle.isSome ∧
        CombinarAnimaciones.Scene.loaded.actionRun.isSome) ∧
      (MundoVirtual.Scene.loaded.mixer.isSome ∧
        MundoVirtual.Scene.loaded.actionIdle.isSome ∧
        MundoVirtual.Scene.loaded.actionRun.isSome) ∧
      (CombinarAnimaciones.tick Frame.still CombinarAnimaciones.Scene.loaded).1.weights =
        (some JSNum.one, some JSNum.zero) ∧
      (MundoVirtual.tick Frame.still MundoVirtual.Scene.loaded).1.weights =
        (some JSNum.one, some JSNum.zero) :=
  ⟨by decide, by decide,
    (blend_weights_after_tick Frame.still CombinarAnimaciones.Scene.loaded
      MundoVirtual.Scene.loaded true (by decide) (by decide)).1.1 (by decide),
    (blend_weights_after_tick Frame.still CombinarAnimaciones.Scene.loaded
      MundoVirtual.Scene.loaded true (by decide) (by decide)).2.1 (by decide)⟩

/-- C2 as stated fails: with `w` held and a physics step that leaves every body where it
is, the player proxy ends the tick at `z = -0.1`, one input offset away from the
position the physics step produced (`z = 0`), in `02-Controles` and in
`04-Mundo-Virtual`. -/
theorem proxy_differs_from_step_output :
    ((Controles.tick Frame.still Controles.Scene.forwardHeld).1.playerMesh.position ≠
        (Frame.still.fixedStep Controles.Scene.forwardHeld.world).playerBody.position ∧
      (Controles.tick Frame.still Controles.Scene.forwardHeld).1.playerMesh.position.z =
        -JSNum.lit_0_1 ∧
      (Frame.still.fixedStep Controles.Scene.forwardHeld.world).playerBody.position.z =
        JSNum.zero) ∧
    ((MundoVirtual.tick Frame.still MundoVirtual.Scene.forwardHeld).1.foxPlayer.position ≠
        (Frame.still.fixedStep MundoVirtual.Scene.forwardHeld.world).playerBody.position ∧
      (MundoVirtual.tick Frame.still MundoVirtual.Scene.forwardHeld).1.foxPlayer.position.z =
        -JSNum.lit_0_1 ∧
      (Frame.still.fixedStep MundoVirtual.Scene.forwardHeld.world).playerBody.position.z =
        JSNum.zero) := by
  decide

/-- C2, amended: after every tick `sphereMesh` carries exactly the position and orientation
the physics step of that tick produced for `sphereBody`; the player proxy (`playerMesh`
in `02-Controles`, `foxPlayer` in `04-Mundo-Virtual` once `fox` is loaded) carries the
orientation the step produced for `playerBody` and the position the step produced with
that tick's input offsets applied, which is the step's position itself when no movement
key is held; while `fox` is not loaded `foxPlayer` keeps its transform. -/
theorem proxy_copies_step_output_with_offsets (fr : Frame) (s2 : Controles.Scene)
    (s4 : MundoVirtual.Scene) :
    ((Controles.tick fr s2).1.sphereMesh.position = (fr.fixedStep s2.world).sphereBody.position ∧
      (Controles.tick fr s2).1.sphereMesh.quaternion =
        (fr.fixedStep s2.world).sphereBody.quaternion ∧
      (Controles.tick fr s2).1.playerMesh.quaternion =
        (fr.fixedStep s2.world).playerBody.quaternion ∧
      (Controles.tick fr s2).1.playerMesh.position =
        playerOffsets s2.playerMovement (fr.fixedStep s2.world).playerBody.position ∧
      (s2.playerMovement.noneHeld →
        (Controles.tick fr s2).1.playerMesh.position =
          (fr.fixedStep s2.world).playerBody.position)) ∧
    ((MundoVirtual.tick fr s4).1.sphereMesh.position =
        (fr.fixedStep s4.world).sphereBody.position ∧
      (MundoVirtual.tick fr s4).1.sphereMesh.quaternion =
        (fr.fixedStep s4.world).sphereBody.quaternion ∧
      (s4.fox.isSome →
        (MundoVirtual.tick fr s4).1.foxPlayer.quaternion =
            (fr.fixedStep s4.world).playerBody.quaternion ∧
          (MundoVirtual.tick fr s4).1.foxPlayer.position =
            playerOffsets s4.playerMovement (fr.fixedStep s4.world).playerBody.position ∧
          (s4.playerMovement.noneHeld →
            (MundoVirtual.tick fr s4).1.foxPlayer.position =
              (fr.fixedStep s4.world).playerBody.position)) ∧
      (s4.fox = none → (MundoVirtual.tick fr s4).1.foxPlayer = s4.foxPlayer)) := by
  refine ⟨?_, ?_, ?_, ?_, ?_⟩
  · rw [tick_state_controles]
    exact ⟨rfl, rfl, rfl, rfl, fun h => playerOffsets_of_noneHeld _ _ h⟩
  · rw [tick_sphereMesh_mundo]
  · rw [tick_sphereMesh_mundo]
  · intro h
    rw [tick_foxPlayer_mundo, if_pos h]
    exact ⟨rfl, rfl, fun h => playerOffsets_of_noneHeld _ _ h⟩
  · intro h
    rw [tick_foxPlayer_mundo, h]
    rfl

/-- Witness of the amended C2: the loaded scene of `04-Mundo-Virtual` and the initial
scene of `02-Controles`, no key held. -/
theorem proxy_copies_step_output_with_offsets_witness :
    Controles.Scene.initial.playerMovement.noneHeld ∧
      MundoVirtual.Scene.loaded.fox.isSome ∧
      MundoVirtual.Scene.loaded.playerMovement.noneHeld ∧
      (Controles.tick Frame.still Controles.Scene.initial).1.playerMesh.position =
        (Frame.still.fixedStep Controles.Scene.initial.world).playerBody.position ∧
      (MundoVirtual.tick Frame.still MundoVirtual.Scene.loaded).1.foxPlayer.position =
        (Frame.still.fixedStep MundoVirtual.Scene.loaded.world).playerBody.position :=
  ⟨by decide, by decide, by decide,
    (proxy_copies_step_output_with_offsets Frame.still Controles.Scene.initial
      MundoVirtual.Scene.loaded).1.2.2.2.2 (by decide),
    ((proxy_copies_step_output_with_offsets Frame.still Controles.Scene.initial
      MundoVirtual.Scene.loaded).2.2.2.1 (by decide)).2.2 (by decide)⟩

/-- C3 as stated fails: ten ticks with only `w` held, speed 0.1 and a physics step that
leaves every body where it is take `playerBody.position.z` from `0` to
`-0.9999999999999999`; the decrease is neither ten times the speed nor `1`, in
`02-Controles` and in `04-Mundo-Virtual`. -/
theorem forward_ten_frames_not_ten_speeds :
    (Controles.Scene.forwardHeld.playerMovement.forwardOnly ∧
      StepKeepsPlayerPosition (List.replicate 10 Frame.still) ∧
      Controles.Scene.forwardHeld.world.playerBody.position.z = JSNum.zero ∧
      (Controles.run (List.replicate 10 Frame.still)
          Controles.Scene.forwardHeld).world.playerBody.position.z =
        JSNum.fin (-Int.ofNat (9007199254740991 <<< 1021)) ∧
      ¬ ExactlyOffset Controles.Scene.forwardHeld.world.playerBody.position.z
          (Controles.run (List.replicate 10 Frame.still)
            Controles.Scene.forwardHeld).world.playerBody.position.z
          (-10) Controles.Scene.forwardHeld.playerMovement.speed ∧
      (Controles.run (List.replicate 10 Frame.still)
          Controles.Scene.forwardHeld).world.playerBody.position.z ≠ -JSNum.one) ∧
    (MundoVirtual.Scene.forwardHeld.playerMovement.forwardOnly ∧
      MundoVirtual.Scene.forwardHeld.world.playerBody.position.z = JSNum.zero ∧
      (MundoVirtual.run (List.replicate 10 Frame.still)
          MundoVirtual.Scene.forwardHeld).world.playerBody.position.z =
        JSNum.fin (-Int.ofNat (9007199254740991 <<< 1021)) ∧
      ¬ ExactlyOffset MundoVirtual.Scene.forwardHeld.world.playerBody.position.z
          (MundoVirtual.run (List.replicate 10 Frame.still)
            MundoVirtual.Scene.forwardHeld).world.playerBody.position.z
          (-10) MundoVirtual.Scene.forwardHeld.playerMovement.speed ∧
      (MundoVirtual.run (List.replicate 10 Frame.still)
          MundoVirtual.Scene.forwardHeld).world.playerBody.position.z ≠ -JSNum.one) :=
  ⟨⟨by decide, stepKeepsPlayerPosition_still 10, by decide, by decide, by decide, by decide⟩,
    ⟨by decide, by decide, by decide, by decide, by decide⟩⟩

/-- C3, amended: in `02-Controles` and `04-Mundo-Virtual`, `N` consecutive ticks with only
forward held, the physics step leaving the position of `playerBody` unchanged, leave
`position.x` and `position.y` unchanged and apply `N` successive rounded subtractions of
the speed to `position.z`; the decrease is exactly `N` times the speed whenever every
intermediate value `z - j * speed`, `j = 1 .. N`, is a binary64 value. -/
theorem forward_frames_subtract_speed (frames : List Frame) (s2 : Controles.Scene)
    (s4 : MundoVirtual.Scene) (h2 : s2.playerMovement.forwardOnly)
    (h4 : s4.playerMovement.forwardOnly) (hstep : StepKeepsPlayerPosition frames) :
    ((Controles.run frames s2).world.playerBody.position.x = s2.world.playerBody.position.x ∧
      (Controles.run frames s2).world.playerBody.position.y = s2.world.playerBody.position.y ∧
      (Controles.run frames s2).world.playerBody.position.z =
        (fun z => z - s2.playerMovement.speed)^[frames.length]
          s2.world.playerBody.position.z ∧
      ∀ k v : Int, s2.world.playerBody.position.z = JSNum.fin k →
        s2.playerMovement.speed = JSNum.fin v →
        (∀ j < frames.length, JSNum.Representable (k - ((j : Int) + 1) * v)) →
        (Controles.run frames s2).world.playerBody.position.z =
          JSNum.fin (k - (frames.length : Int) * v)) ∧
    ((MundoVirtual.run frames s4).world.playerBody.position.x =
        s4.world.playerBody.position.x ∧
      (MundoVirtual.run frames s4).world.playerBody.position.y =
        s4.world.playerBody.position.y ∧
      (MundoVirtual.run frames s4).world.playerBody.position.z =
        (fun z => z - s4.playerMovement.speed)^[frames.length]
          s4.world.playerBody.position.z ∧
      ∀ k v : Int, s4.world.playerBody.position.z = JSNum.fin k →
        s4.playerMovement.speed = JSNum.fin v →
        (∀ j < frames.length, JSNum.Representable (k - ((j : Int) + 1) * v)) →
        (MundoVirtual.run frames s4).world.playerBody.position.z =
          JSNum.fin (k - (frames.length : Int) * v)) := by
  have e2 := run_position_controles frames s2 hstep
  have e4 := run_position_mundo frames s4 hstep
  rw [forward_position _ h2] at e2
  rw [forward_position _ h4] at e4
  rw [e2, e4]
  refine ⟨⟨rfl, rfl, rfl, ?_⟩, ⟨rfl, rfl, rfl, ?_⟩⟩
  · intro k v hk hv hrep
    show (fun z => z - s2.playerMovement.speed)^[frames.length]
      s2.world.playerBody.position.z = _
    rw [hk, hv, JSNum.iterate_sub_exact k v frames.length hrep]
  · intro k v hk hv hrep
    show (fun z => z - s4.playerMovement.speed)^[frames.length]
      s4.world.playerBody.position.z = _
    rw [hk, hv, JSNum.iterate_sub_exact k v frames.length hrep]

/-- Witness of the amended C3: two ticks with `w` held and speed 0.1 take
`position.z` from `0` to `-0.2`, which is exactly two speeds. -/
theorem forward_frames_subtract_speed_witness :
    Controles.Scene.forwardHeld.playerMovement.forwardOnly ∧
      MundoVirtual.Scene.forwardHeld.playerMovement.forwardOnly ∧
      StepKeepsPlayerPosition (List.replicate 2 Frame.still) ∧
      (∀ j < (List.replicate 2 Frame.still).length,
        JSNum.Representable
          (0 - ((j : Int) + 1) * Int.ofNat (3602879701896397 <<< 1019))) ∧
      (Controles.run (List.replicate 2 Frame.still)
          Controles.Scene.forwardHeld).world.playerBody.position.z =
        JSNum.fin (0 - ((List.replicate 2 Frame.still).length : Int) *
          Int.ofNat (3602879701896397 <<< 1019)) ∧
      (MundoVirtual.run (List.replicate 2 Frame.still)
          MundoVirtual.Scene.forwardHeld).world.playerBody.position.z =
        JSNum.fin (0 - ((List.replicate 2 Frame.still).length : Int) *
          Int.ofNat (3602879701896397 <<< 1019)) :=
  ⟨by decide, by decide, stepKeepsPlayerPosition_still 2, by decide,
    (forward_frames_subtract_speed (List.replicate 2 Frame.still) Controles.Scene.forwardHeld
      MundoVirtual.Scene.forwardHeld (by decide) (by decide)
      (stepKeepsPlayerPosition_still 2)).1.2.2.2 0 (Int.ofNat (3602879701896397 <<< 1019))
      rfl rfl (by decide),
    (forward_frames_subtract_speed (List.replicate 2 Frame.still) Controles.Scene.forwardHeld
      MundoVirtual.Scene.forwardHeld (by decide) (by decide)
      (stepKeepsPlayerPosition_still 2)).2.2.2.2 0 (Int.ofNat (3602879701896397 <<< 1019))
      rfl rfl (by decide)⟩

set_option maxRecDepth 100000 in
/-- C4 as stated fails: fifty ticks with the space bar held, speed 0.1 and a physics step
that leaves every body where it is take `playerBody.position.y` from `-1` to
`4.000000000000002` in `02-Controles` and from `1` to `5.999999999999996` in
`04-Mundo-Virtual`; the increase is neither fifty times the speed nor `5.0`. -/
theorem jump_fifty_frames_not_five :
    (Controles.Scene.jumpHeld.playerMovement.jump = true ∧
      StepKeepsPlayerPosition (List.replicate 50 Frame.still) ∧
      Controles.Scene.jumpHeld.world.playerBody.position.y = -JSNum.whole 1 ∧
      (Controles.run (List.replicate 50 Frame.still)
          Controles.Scene.jumpHeld).world.playerBody.position.y =
        JSNum.fin (Int.ofNat (2251799813685249 <<< 1025)) ∧
      ¬ ExactlyOffset Controles.Scene.jumpHeld.world.playerBody.position.y
          (Controles.run (List.replicate 50 Frame.still)
            Controles.Scene.jumpHeld).world.playerBody.position.y
          50 Controles.Scene.jumpHeld.playerMovement.speed ∧
      ¬ ExactlyOffset Controles.Scene.jumpHeld.world.playerBody.position.y
          (Controles.run (List.replicate 50 Frame.still)
            Controles.Scene.jumpHeld).world.playerBody.position.y
          5 JSNum.one ∧
      (Controles.run (List.replicate 50 Frame.still)
          Controles.Scene.jumpHeld).world.playerBody.position.y ≠ JSNum.whole 4) ∧
    (MundoVirtual.Scene.jumpHeld.playerMovement.jump = true ∧
      MundoVirtual.Scene.jumpHeld.world.playerBody.position.y = JSNum.whole 1 ∧
      (MundoVirtual.run (List.replicate 50 Frame.still)
          MundoVirtual.Scene.jumpHeld).world.playerBody.position.y =
        JSNum.fin (Int.ofNat (6755399441055739 <<< 1024)) ∧
      ¬ ExactlyOffset MundoVirtual.Scene.jumpHeld.world.playerBody.position.y
          (MundoVirtual.run (List.replicate 50 Frame.still)
            MundoVirtual.Scene.jumpHeld).world.playerBody.position.y
          50 MundoVirtual.Scene.jumpHeld.playerMovement.speed ∧
      ¬ ExactlyOffset MundoVirtual.Scene.jumpHeld.world.playerBody.position.y
          (MundoVirtual.run (List.replicate 50 Frame.still)
            MundoVirtual.Scene.jumpHeld).world.playerBody.position.y
          5 JSNum.one ∧
      (MundoVirtual.run (List.replicate 50 Frame.still)
          MundoVirtual.Scene.jumpHeld).world.playerBody.position.y ≠ JSNum.whole 6) :=
  ⟨⟨by decide, stepKeepsPlayerPosition_still 50, by decide, by decide, by decide, by decide,
      by decide⟩,
    ⟨by decide, by decide, by decide, by decide, by decide, by decide⟩⟩

/-- C4, amended: in `02-Controles` and `04-Mundo-Virtual` the jump offset has no cooldown
and no limit: for every `N`, `N` consecutive ticks with jump held, the physics step
leaving the position of `playerBody` unchanged, apply `N` successive rounded additions of
the speed to `position.y`; the increase is exactly `N` times the speed whenever every
intermediate value `y + j * speed`, `j = 1 .. N`, is a binary64 value. -/
theorem jump_frames_add_speed (frames : List Frame) (s2 : Controles.Scene)
    (s4 : MundoVirtual.Scene) (h2 : s2.playerMovement.jump = true)
    (h4 : s4.playerMovement.jump = true) (hstep : StepKeepsPlayerPosition frames) :
    ((Controles.run frames s2).world.playerBody.position.y =
        (fun y => y + s2.playerMovement.speed)^[frames.length]
          s2.world.playerBody.position.y ∧
      ∀ k v : Int, s2.world.playerBody.position.y = JSNum.fin k →
        s2.playerMovement.speed = JSNum.fin v →
        (∀ j < frames.length, JSNum.Representable (k + ((j : Int) + 1) * v)) →
        (Controles.run frames s2).world.playerBody.position.y =
          JSNum.fin (k + (frames.length : Int) * v)) ∧
    ((MundoVirtual.run frames s4).world.playerBody.position.y =
        (fun y => y + s4.playerMovement.speed)^[frames.length]
          s4.world.playerBody.position.y ∧
      ∀ k v : Int, s4.world.playerBody.position.y = JSNum.fin k →
        s4.playerMovement.speed = JSNum.fin v →
        (∀ j < frames.length, JSNum.Representable (k + ((j : Int) + 1) * v)) →
        (MundoVirtual.run frames s4).world.playerBody.position.y =
          JSNum.fin (k + (frames.length : Int) * v)) := by
  have e2 := congrArg Vec3.y (run_position_controles frames s2 hstep)
  have e4 := congrArg Vec3.y (run_position_mundo frames s4 hstep)
  rw [iterate_offsets_y _ h2] at e2
  rw [iterate_offsets_y _ h4] at e4
  refine ⟨⟨e2, ?_⟩, ⟨e4, ?_⟩⟩
  · intro k v hk hv hrep
    rw [e2, hk, hv, JSNum.iterate_add_exact k v frames.length hrep]
  · intro k v hk hv hrep
    rw [e4, hk, hv, JSNum.iterate_add_exact k v frames.length hrep]

/-- Witness of the amended C4: two ticks with the space bar held and speed 0.1 take
`position.y` from `-1` to `-0.8` in `02-Controles` and from `1` to `1.2` in
`04-Mundo-Virtual`. -/
theorem jump_frames_add_speed_witness :
    Controles.Scene.jumpHeld.playerMovement.jump = true ∧
      MundoVirtual.Scene.jumpHeld.playerMovement.jump = true ∧
      StepKeepsPlayerPosition (List.replicate 2 Frame.still) ∧
      (Controles.run (List.replicate 2 Frame.still)
          Controles.Scene.jumpHeld).world.playerBody.position.y =
        (fun y => y + JSNum.lit_0_1)^[2] (-JSNum.whole 1) ∧
      (MundoVirtual.run (List.replicate 2 Frame.still)
          MundoVirtual.Scene.jumpHeld).world.playerBody.position.y =
        (fun y => y + JSNum.lit_0_1)^[2] (JSNum.whole 1) :=
  ⟨by decide, by decide, stepKeepsPlayerPosition_still 2,
    (jump_frames_add_speed (List.replicate 2 Frame.still) Controles.Scene.jumpHeld
      MundoVirtual.Scene.jumpHeld (by decide) (by decide)
      (stepKeepsPlayerPosition_still 2)).1.1,
    (jump_frames_add_speed (List.replicate 2 Frame.still) Controles.Scene.jumpHeld
      MundoVirtual.Scene.jumpHeld (by decide) (by decide)
      (stepKeepsPlayerPosition_still 2)).2.1⟩

/-- C5: in `03-Combinar-animaciones` and `04-Mundo-Virtual`, for every input state, a tick
run while the model is not loaded (`mixer`, `actionIdle`, `actionRun` and, in 04, `fox`
are `null`) runs to its last statement, the re-schedule, and skips the guarded steps: no
mixer advance, no weight written, `foxPlayer` untouched; in 04 the physics step, the input
offsets on `playerBody` and the copy to `sphereMesh` are still performed. -/
theorem tick_skips_guarded_steps_while_loading (fr : Frame) (s3 : CombinarAnimaciones.Scene)
    (s4 : MundoVirtual.Scene)
    (h3 : s3.mixer = none ∧ s3.actionIdle = none ∧ s3.actionRun = none)
    (h4 : s4.mixer = none ∧ s4.actionIdle = none ∧ s4.actionRun = none ∧ s4.fox = none) :
    (CombinarAnimaciones.tick fr s3 =
        ({ s3 with previousTime := fr.elapsedTime },
          [Effect.controlsUpdate, Effect.render, Effect.requestAnimationFrame]) ∧
      (∀ e ∈ (CombinarAnimaciones.tick fr s3).2, e.isAnimation = false) ∧
      (CombinarAnimaciones.tick fr s3).2.getLast? = some Effect.requestAnimationFrame) ∧
    ((MundoVirtual.tick fr s4).2 =
        [Effect.fixedStep] ++ playerOffsetEffects s4.playerMovement ++
          [Effect.positionCopy Proxy.sphereMesh, Effect.quaternionCopy Proxy.sphereMesh,
            Effect.controlsUpdate, Effect.render, Effect.requestAnimationFrame] ∧
      (∀ e ∈ (MundoVirtual.tick fr s4).2, e.isAnimation = false) ∧
      (MundoVirtual.tick fr s4).2.getLast? = some Effect.requestAnimationFrame ∧
      (MundoVirtual.tick fr s4).1.mixer = none ∧
      (MundoVirtual.tick fr s4).1.actionIdle = none ∧
      (MundoVirtual.tick fr s4).1.actionRun = none ∧
      (MundoVirtual.tick fr s4).1.fox = none ∧
      (MundoVirtual.tick fr s4).1.foxPlayer = s4.foxPlayer ∧
      (MundoVirtual.tick fr s4).1.world =
        { sphereBody := (fr.fixedStep s4.world).sphereBody,
          playerBody :=
            { (fr.fixedStep s4.world).playerBody with
              position :=
                playerOffsets s4.playerMovement (fr.fixedStep s4.world).playerBody.position } } ∧
      (MundoVirtual.tick fr s4).1.sphereMesh =
        { position := (fr.fixedStep s4.world).sphereBody.position,
          quaternion := (fr.fixedStep s4.world).sphereBody.quaternion }) := by
  obtain ⟨hm3, hi3, hr3⟩ := h3
  obtain ⟨hm4, hi4, hr4, hf4⟩ := h4
  have a3 : s3.animationActive = false := by
    simp [CombinarAnimaciones.Scene.animationActive, hm3]
  have a4 : s4.animationActive = false := by
    simp [MundoVirtual.Scene.animationActive, hm4]
  have t3 := tick_inactive_combinar fr s3 a3
  have t4 : (MundoVirtual.tick fr s4).2 =
      [Effect.fixedStep] ++ playerOffsetEffects s4.playerMovement ++
        [Effect.positionCopy Proxy.sphereMesh, Effect.quaternionCopy Proxy.sphereMesh,
          Effect.controlsUpdate, Effect.render, Effect.requestAnimationFrame] := by
    rw [tick_trace_mundo, a4, hf4]
    simp
  have i4 := tick_animation_inactive_mundo fr s4 a4
  refine ⟨⟨t3, ?_, ?_⟩, t4, ?_, ?_, ?_, ?_, ?_, ?_, ?_, ?_, ?_⟩
  · rw [t3]
    simp [Effect.isAnimation]
  · rw [t3]
    rfl
  · rw [t4]
    intro e he
    simp only [List.mem_append] at he
    rcases he with (he | he) | he
    · simp only [List.mem_singleton] at he
      rw [he]
      rfl
    · exact playerOffsetEffects_not_animation _ e he
    · simp only [List.mem_cons, List.mem_singleton, List.not_mem_nil, or_false] at he
      rcases he with he | he | he | he | he <;> (rw [he]; rfl)
  · rw [t4, List.getLast?_append]
    rfl
  · rw [i4.1, hm4]
  · rw [i4.2.1, hi4]
  · rw [i4.2.2, hr4]
  · rw [(tick_rest_mundo fr s4).2.1, hf4]
  · rw [tick_foxPlayer_mundo, hf4]
    rfl
  · exact tick_world_mundo fr s4
  · exact tick_sphereMesh_mundo fr s4

/-- Witness of C5: both scenes as the top-level statements leave them, before the load
callback has run. -/
theorem tick_skips_guarded_steps_while_loading_witness :
    (CombinarAnimaciones.Scene.initial.mixer = none ∧
        CombinarAnimaciones.Scene.initial.actionIdle = none ∧
        CombinarAnimaciones.Scene.initial.actionRun = none) ∧
      (MundoVirtual.Scene.initial.mixer = none ∧
        MundoVirtual.Scene.initial.actionIdle = none ∧
        MundoVirtual.Scene.initial.actionRun = none ∧
        MundoVirtual.Scene.initial.fox = none) ∧
      (CombinarAnimaciones.tick Frame.still CombinarAnimaciones.Scene.initial).2.getLast? =
        some Effect.requestAnimationFrame ∧
      (MundoVirtual.tick Frame.still MundoVirtual.Scene.initial).1.foxPlayer =
        MundoVirtual.Scene.initial.foxPlayer :=
  ⟨⟨rfl, rfl, rfl⟩, ⟨rfl, rfl, rfl, rfl⟩,
    (tick_skips_guarded_steps_while_loading Frame.still CombinarAnimaciones.Scene.initial
      MundoVirtual.Scene.initial ⟨rfl, rfl, rfl⟩ ⟨rfl, rfl, rfl, rfl⟩).1.2.2,
    (tick_skips_guarded_steps_while_loading Frame.still CombinarAnimaciones.Scene.initial
      MundoVirtual.Scene.initial ⟨rfl, rfl, rfl⟩ ⟨rfl, rfl, rfl, rfl⟩).2.2.2.2.2.2.2.2.1⟩

/-- C6: in `03-Combinar-animaciones` and `04-Mundo-Virtual`, with the model loaded and
starting from the initial input state, after any sequence of key-downs of directional
keys (`w`, `s`, `a`, `d`) that includes `s`, followed by a key-up of every directional
key, every flag of the input state is false and the time-scale of the run action is the
value the last key-down of `w` or `s` set (1 for `w`, -1 for `s`); no key-up and no
key-down of `a`, `d` or space changes the time-scale. -/
theorem release_keeps_last_time_scale (downs ups : List String)
    (s3 : CombinarAnimaciones.Scene) (s4 : MundoVirtual.Scene)
    (h3 : s3.actionRun.isSome ∧ s3.playerMovement = PlayerMovement.initial)
    (h4 : s4.actionRun.isSome ∧ s4.playerMovement = PlayerMovement.initial)
    (hdowns : ∀ key ∈ downs, key ∈ directionalKeys) (hs : "s" ∈ downs)
    (hups : ∀ key ∈ directionalKeys, key ∈ ups) :
    ((CombinarAnimaciones.dispatch
          (downs.map KeyEvent.keydown ++ ups.map KeyEvent.keyup) s3).playerMovement.noneHeld ∧
      (CombinarAnimaciones.dispatch
          (downs.map KeyEvent.keydown ++ ups.map KeyEvent.keyup) s3).runTimeScale =
        lastTimeScale? downs ∧
      (lastTimeScale? downs = some JSNum.one ∨ lastTimeScale? downs = some (-JSNum.one)) ∧
      (∀ (s : CombinarAnimaciones.Scene) (key : String),
        (CombinarAnimaciones.keyup key s).state.runTimeScale = s.runTimeScale) ∧
      (∀ (s : CombinarAnimaciones.Scene) (key : String), key ∈ ["a", "d", " "] →
        (CombinarAnimaciones.keydown key s).state.runTimeScale = s.runTimeScale)) ∧
    ((MundoVirtual.dispatch
          (downs.map KeyEvent.keydown ++ ups.map KeyEvent.keyup) s4).playerMovement.noneHeld ∧
      (MundoVirtual.dispatch
          (downs.map KeyEvent.keydown ++ ups.map KeyEvent.keyup) s4).runTimeScale =
        lastTimeScale? downs ∧
      (lastTimeScale? downs = some JSNum.one ∨ lastTimeScale? downs = some (-JSNum.one)) ∧
      (∀ (s : MundoVirtual.Scene) (key : String),
        (MundoVirtual.keyup key s).state.runTimeScale = s.runTimeScale) ∧
      (∀ (s : MundoVirtual.Scene) (key : String), key ∈ ["a", "d", " "] →
        (MundoVirtual.keydown key s).state.runTimeScale = s.runTimeScale)) := by
  have hv := lastTimeScale?_of_mem downs hs
  obtain ⟨a1, a2⟩ := released_combinar downs ups s3 h3 hdowns hups
  obtain ⟨b1, b2⟩ := released_mundo downs ups s4 h4 hdowns hups
  refine ⟨⟨a1, ?_, hv, fun s key => keyup_timeScale_combinar key s,
      fun s key hk => keydown_other_timeScale_combinar key s hk⟩,
    ⟨b1, ?_, hv, fun s key => keyup_timeScale_mundo key s,
      fun s key hk => keydown_other_timeScale_mundo key s hk⟩⟩
  · rw [a2]
    rcases hv with e | e <;> rw [e]
  · rw [b2]
    rcases hv with e | e <;> rw [e]

/-- Witness of C6: `w` then `s` pressed, then all four directional keys released, on the
loaded scenes: the time-scale stays at `-1`. -/
theorem release_keeps_last_time_scale_witness :
    (CombinarAnimaciones.Scene.loaded.actionRun.isSome ∧
        CombinarAnimaciones.Scene.loaded.playerMovement = PlayerMovement.initial) ∧
      (MundoVirtual.Scene.loaded.actionRun.isSome ∧
        MundoVirtual.Scene.loaded.playerMovement = PlayerMovement.initial) ∧
      (∀ key ∈ ["w", "s"], key ∈ directionalKeys) ∧
      "s" ∈ ["w", "s"] ∧
      (∀ key ∈ directionalKeys, key ∈ ["w", "s", "a", "d"]) ∧
      lastTimeScale? ["w", "s"] = some (-JSNum.one) ∧
      (CombinarAnimaciones.dispatch
          (["w", "s"].map KeyEvent.keydown ++ ["w", "s", "a", "d"].map KeyEvent.keyup)
          CombinarAnimaciones.Scene.loaded).runTimeScale = lastTimeScale? ["w", "s"] ∧
      (MundoVirtual.dispatch
          (["w", "s"].map KeyEvent.keydown ++ ["w", "s", "a", "d"].map KeyEvent.keyup)
          MundoVirtual.Scene.loaded).runTimeScale = lastTimeScale? ["w", "s"] :=
  ⟨by decide, by decide, by decide, by decide, by decide, by decide,
    (release_keeps_last_time_scale ["w", "s"] ["w", "s", "a", "d"]
      CombinarAnimaciones.Scene.loaded MundoVirtual.Scene.loaded (by decide) (by decide)
      (by decide) (by decide) (by decide)).1.2.1,
    (release_keeps_last_time_scale ["w", "s"] ["w", "s", "a", "d"]
      CombinarAnimaciones.Scene.loaded MundoVirtual.Scene.loaded (by decide) (by decide)
      (by decide) (by decide) (by decide)).2.2.1⟩

/-- C7: in all three scenes, for every input state and every key, a key-down of `w`, `s`,
`a`, `d`, space sets exactly the flag forward, backward, left, right, jump to true, a
key-up of the same key sets exactly that flag to false, every other flag and the speed
are left unchanged, a key event for any other key (`W`, `ArrowUp`, ...) leaves the input
state unchanged, and key-down and key-up are each idempotent on the input state. -/
theorem listeners_meet_input_contract :
    InputContract (fun s : Controles.Scene => s.playerMovement)
        Controles.keydown Controles.keyup ∧
      InputContract (fun s : CombinarAnimaciones.Scene => s.playerMovement)
        (fun key s => (CombinarAnimaciones.keydown key s).state)
        (fun key s => (CombinarAnimaciones.keyup key s).state) ∧
      InputContract (fun s : MundoVirtual.Scene => s.playerMovement)
        (fun key s => (MundoVirtual.keydown key s).state)
        (fun key s => (MundoVirtual.keyup key s).state) ∧
      (Controles.keydown "W" Controles.Scene.initial).playerMovement =
        Controles.Scene.initial.playerMovement ∧
      (Controles.keydown "ArrowUp" Controles.Scene.initial).playerMovement =
        Controles.Scene.initial.playerMovement :=
  ⟨inputContract_of_press _ _ _ keydown_input_controles keyup_input_controles,
    inputContract_of_press _ _ _ keydown_input_combinar keyup_input_combinar,
    inputContract_of_press _ _ _ keydown_input_mundo keyup_input_mundo,
    by decide, by decide⟩

/-- C8 against the code: the load callback of `03-Combinar-animaciones` and of
`04-Mundo-Virtual` creates the idle action from `gltf.animations[0]` and the run action
from `gltf.animations[1]`; on a model with the clips Survey, Walk, Run the run action
drives Walk, not the clip at index 2. -/
theorem run_action_created_from_clip_one :
    (∀ (gltf : GLTF) (s : CombinarAnimaciones.Scene),
        (CombinarAnimaciones.onLoad gltf s).actionIdle.map (fun a => a.clip) =
            some gltf.animations[0]? ∧
          (CombinarAnimaciones.onLoad gltf s).actionRun.map (fun a => a.clip) =
            some gltf.animations[1]?) ∧
      (∀ (gltf : GLTF) (s : MundoVirtual.Scene),
        (MundoVirtual.onLoad gltf s).actionIdle.map (fun a => a.clip) =
            some gltf.animations[0]? ∧
          (MundoVirtual.onLoad gltf s).actionRun.map (fun a => a.clip) =
            some gltf.animations[1]?) ∧
      foxGLTF.animations[2]? = some ⟨"Run"⟩ ∧
      CombinarAnimaciones.Scene.loaded.actionRun.map (fun a => a.clip) =
        some (some ⟨"Walk"⟩) ∧
      MundoVirtual.Scene.loaded.actionRun.map (fun a => a.clip) = some (some ⟨"Walk"⟩) ∧
      CombinarAnimaciones.Scene.loaded.actionRun.map (fun a => a.clip) ≠
        some foxGLTF.animations[2]? ∧
      MundoVirtual.Scene.loaded.actionRun.map (fun a => a.clip) ≠
        some foxGLTF.animations[2]? :=
  ⟨fun _ _ => ⟨rfl, rfl⟩, fun _ _ => ⟨rfl, rfl⟩, by decide, by decide, by decide, by decide,
    by decide⟩

/-- C9: at the end of every tick, for every input state, `sphereMesh` has the position and
quaternion `sphereBody` has then, and the player proxy has the position and quaternion
`playerBody` has then, that is the value after that tick's input offsets have been
added: `playerMesh` in `02-Controles` always, `foxPlayer` in `04-Mundo-Virtual` whenever
`fox` is loaded. -/
theorem proxies_equal_bodies_after_tick (fr : Frame) (s2 : Controles.Scene)
    (s4 : MundoVirtual.Scene) :
    ((Controles.tick fr s2).1.sphereMesh.position =
        (Controles.tick fr s2).1.world.sphereBody.position ∧
      (Controles.tick fr s2).1.sphereMesh.quaternion =
        (Controles.tick fr s2).1.world.sphereBody.quaternion ∧
      (Controles.tick fr s2).1.playerMesh.position =
        (Controles.tick fr s2).1.world.playerBody.position ∧
      (Controles.tick fr s2).1.playerMesh.quaternion =
        (Controles.tick fr s2).1.world.playerBody.quaternion ∧
      (Controles.tick fr s2).1.world.playerBody.position =
        playerOffsets s2.playerMovement (fr.fixedStep s2.world).playerBody.position) ∧
    ((MundoVirtual.tick fr s4).1.sphereMesh.position =
        (MundoVirtual.tick fr s4).1.world.sphereBody.position ∧
      (MundoVirtual.tick fr s4).1.sphereMesh.quaternion =
        (MundoVirtual.tick fr s4).1.world.sphereBody.quaternion ∧
      (s4.fox.isSome →
        (MundoVirtual.tick fr s4).1.foxPlayer.position =
            (MundoVirtual.tick fr s4).1.world.playerBody.position ∧
          (MundoVirtual.tick fr s4).1.foxPlayer.quaternion =
            (MundoVirtual.tick fr s4).1.world.playerBody.quaternion) ∧
      (MundoVirtual.tick fr s4).1.world.playerBody.position =
        playerOffsets s4.playerMovement (fr.fixedStep s4.world).playerBody.position) := by
  refine ⟨?_, ?_, ?_, ?_, ?_⟩
  · rw [tick_state_controles]
    exact ⟨rfl, rfl, rfl, rfl, rfl⟩
  · rw [tick_sphereMesh_mundo, tick_world_mundo]
  · rw [tick_sphereMesh_mundo, tick_world_mundo]
  · intro h
    rw [tick_foxPlayer_mundo, tick_world_mundo, if_pos h]
    exact ⟨rfl, rfl⟩
  · rw [tick_world_mundo]

/-- Witness of C9: the loaded scene of `04-Mundo-Virtual` with `w` held. -/
theorem proxies_equal_bodies_after_tick_witness :
    MundoVirtual.Scene.forwardHeld.fox.isSome ∧
      (MundoVirtual.tick Frame.still MundoVirtual.Scene.forwardHeld).1.foxPlayer.position =
        (MundoVirtual.tick Frame.still
          MundoVirtual.Scene.forwardHeld).1.world.playerBody.position ∧
      (MundoVirtual.tick Frame.still MundoVirtual.Scene.forwardHeld).1.foxPlayer.position.z =
        -JSNum.lit_0_1 :=
  ⟨by decide,
    ((proxies_equal_bodies_after_tick Frame.still Controles.Scene.forwardHeld
      MundoVirtual.Scene.forwardHeld).2.2.2.1 (by decide)).1,
    by decide⟩

/-- C10 as stated fails: in `04-Mundo-Virtual`, with the model loaded, the tick advances
the mixer and writes the two weights first and only then advances the physics; the
physics advance is the fourth effect, not the first. -/
theorem animation_precedes_physics :
    (MundoVirtual.tick Frame.still MundoVirtual.Scene.loaded).2 =
        [Effect.mixerUpdate JSNum.zero,
          Effect.setEffectiveWeight ActionName.idle JSNum.one,
          Effect.setEffectiveWeight ActionName.run JSNum.zero,
          Effect.fixedStep,
          Effect.positionCopy Proxy.sphereMesh, Effect.quaternionCopy Proxy.sphereMesh,
          Effect.positionCopy Proxy.foxPlayer, Effect.quaternionCopy Proxy.foxPlayer,
          Effect.controlsUpdate, Effect.render, Effect.requestAnimationFrame] ∧
      (MundoVirtual.tick Frame.still MundoVirtual.Scene.loaded).2.head? ≠
        some Effect.fixedStep ∧
      (MundoVirtual.tick Frame.still MundoVirtual.Scene.loaded).2.indexOf
          (Effect.mixerUpdate JSNum.zero) <
        (MundoVirtual.tick Frame.still MundoVirtual.Scene.loaded).2.indexOf
          Effect.fixedStep := by
  decide

/-- C10, amended: every tick of `02-Controles` performs, in this order, the single physics
advance, the input offsets on `playerBody`, the body-to-proxy copies, the controls
update, one render and the re-schedule; every tick of `04-Mundo-Virtual` performs first,
when `mixer`, `actionIdle` and `actionRun` are set, the mixer advance by delta time and
the two weight writes, then the single physics advance, the input offsets, the copies
(those to `foxPlayer` when `fox` is loaded), the controls update, one render and the
re-schedule; the physics advance does not depend on the elapsed or the delta time. -/
theorem tick_effects_in_program_order (fr : Frame) (s2 : Controles.Scene)
    (s4 : MundoVirtual.Scene) :
    ((Controles.tick fr s2).2 =
        [Effect.fixedStep] ++ playerOffsetEffects s2.playerMovement ++
          [Effect.positionCopy Proxy.sphereMesh, Effect.quaternionCopy Proxy.sphereMesh,
            Effect.positionCopy Proxy.playerMesh, Effect.quaternionCopy Proxy.playerMesh,
            Effect.controlsUpdate, Effect.render, Effect.requestAnimationFrame] ∧
      (Controles.tick fr s2).2.count Effect.fixedStep = 1 ∧
      ∀ t : JSNum,
        (Controles.tick { fr with elapsedTime := t } s2).1.world =
          (Controles.tick fr s2).1.world) ∧
    ((MundoVirtual.tick fr s4).2 =
        (if s4.animationActive then
            animationEffects (fr.elapsedTime - s4.previousTime) s4.playerMovement
          else []) ++
          [Effect.fixedStep] ++ playerOffsetEffects s4.playerMovement ++
          [Effect.positionCopy Proxy.sphereMesh, Effect.quaternionCopy Proxy.sphereMesh] ++
          (if s4.fox.isSome then
            [Effect.positionCopy Proxy.foxPlayer, Effect.quaternionCopy Proxy.foxPlayer]
          else []) ++
          [Effect.controlsUpdate, Effect.render, Effect.requestAnimationFrame] ∧
      (MundoVirtual.tick fr s4).2.count Effect.fixedStep = 1 ∧
      ∀ t p : JSNum,
        (MundoVirtual.tick { fr with elapsedTime := t } { s4 with previousTime := p }).1.world =
          (MundoVirtual.tick fr s4).1.world) := by
  refine ⟨⟨tick_trace_controles fr s2, ?_, ?_⟩, ⟨tick_trace_mundo fr s4, ?_, ?_⟩⟩
  · rw [tick_trace_controles]
    simp [List.count_append, playerOffsetEffects_count_fixedStep]
  · intro t
    rw [tick_state_controles, tick_state_controles]
  · rw [tick_trace_mundo]
    cases s4.animationActive <;> cases s4.fox.isSome <;>
      simp [List.count_append, playerOffsetEffects_count_fixedStep, animationEffects]
  · intro t p
    rw [tick_world_mundo, tick_world_mundo]

/-- C11: in `03-Combinar-animaciones` and `04-Mundo-Virtual`, a key-down of `w` or `s`
received while `actionRun` is still `null` fails with an error, and it fails after the
forward or backward flag has been set to true, so the input state is changed despite the
failure; a key-down of `a`, `d` or space in the same state does not fail. -/
theorem keydown_before_load_fails_after_flag (s3 : CombinarAnimaciones.Scene)
    (s4 : MundoVirtual.Scene) (h3 : s3.actionRun = none) (h4 : s4.actionRun = none) :
    ((CombinarAnimaciones.keydown "w" s3).error = some JSError.typeError ∧
      (CombinarAnimaciones.keydown "w" s3).state =
        { s3 with playerMovement := { s3.playerMovement with forward := true } } ∧
      (CombinarAnimaciones.keydown "s" s3).error = some JSError.typeError ∧
      (CombinarAnimaciones.keydown "s" s3).state =
        { s3 with playerMovement := { s3.playerMovement with backward := true } } ∧
      (∀ key ∈ ["a", "d", " "], (CombinarAnimaciones.keydown key s3).error = none)) ∧
    ((MundoVirtual.keydown "w" s4).error = some JSError.typeError ∧
      (MundoVirtual.keydown "w" s4).state =
        { s4 with playerMovement := { s4.playerMovement with forward := true } } ∧
      (MundoVirtual.keydown "s" s4).error = some JSError.typeError ∧
      (MundoVirtual.keydown "s" s4).state =
        { s4 with playerMovement := { s4.playerMovement with backward := true } } ∧
      (∀ key ∈ ["a", "d", " "], (MundoVirtual.keydown key s4).error = none)) := by
  obtain ⟨m3, i3, r3, pm3, t3⟩ := s3
  obtain ⟨fox, fp, m4, i4, r4, w4, sm4, pm4, t4⟩ := s4
  simp only at h3 h4
  subst h3 h4
  refine ⟨⟨rfl, rfl, rfl, rfl, ?_⟩, ⟨rfl, rfl, rfl, rfl, ?_⟩⟩
  · intro key hk
    simp only [List.mem_cons, List.mem_singleton, List.not_mem_nil, or_false] at hk
    rcases hk with hk | hk | hk <;> subst hk <;> rfl
  · intro key hk
    simp only [List.mem_cons, List.mem_singleton, List.not_mem_nil, or_false] at hk
    rcases hk with hk | hk | hk <;> subst hk <;> rfl

/-- Witness of C11: both scenes as the top-level statements leave them, before the load
callback has run: `w` raises and leaves `forward` set, `a` does not raise. -/
theorem keydown_before_load_fails_after_flag_witness :
    CombinarAnimaciones.Scene.initial.actionRun = none ∧
      MundoVirtual.Scene.initial.actionRun = none ∧
      CombinarAnimaciones.Scene.initial.playerMovement.forward = false ∧
      (CombinarAnimaciones.keydown "w" CombinarAnimaciones.Scene.initial).error =
        some JSError.typeError ∧
      (CombinarAnimaciones.keydown "w"
        CombinarAnimaciones.Scene.initial).state.playerMovement.forward = true ∧
      (MundoVirtual.keydown "s" MundoVirtual.Scene.initial).error =
        some JSError.typeError ∧
      (MundoVirtual.keydown "s" MundoVirtual.Scene.initial).state.playerMovement.backward =
        true ∧
      (MundoVirtual.keydown "a" MundoVirtual.Scene.initial).error = none :=
  ⟨rfl, rfl, rfl,
    (keydown_before_load_fails_after_flag CombinarAnimaciones.Scene.initial
      MundoVirtual.Scene.initial rfl rfl).1.1,
    congrArg (fun s : CombinarAnimaciones.Scene => s.playerMovement.forward)
      (keydown_before_load_fails_after_flag CombinarAnimaciones.Scene.initial
        MundoVirtual.Scene.initial rfl rfl).1.2.1,
    (keydown_before_load_fails_after_flag CombinarAnimaciones.Scene.initial
      MundoVirtual.Scene.initial rfl rfl).2.2.2.1,
    congrArg (fun s : MundoVirtual.Scene => s.playerMovement.backward)
      (keydown_before_load_fails_after_flag CombinarAnimaciones.Scene.initial
        MundoVirtual.Scene.initial rfl rfl).2.2.2.2.1,
    (keydown_before_load_fails_after_flag CombinarAnimaciones.Scene.initial
      MundoVirtual.Scene.initial rfl rfl).2.2.2.2.2 "a" (by decide)⟩

end MundosVirtuales
